import Mathlib

/-!
# Verification of the nonlinear-crystal phase-matching simulator

A shallow embedding of the solver core (`simulation.py`, with the
configuration record of `configuration.py`) over the reals, together with
theorems settling the frozen claims about it.

Modelling conventions:
* `float` values become `ℝ`; NaN markers become `Option`; raised Python
  exceptions become `Except String`.
* The refractive-index model (`SimulationConfig.get_indices`, an external
  collaborator per the specification) is a function field
  `indexModel : wavelength_nm → temperature_C → Indices`; the nm→µm
  conversion and the 20 °C reference shift inside `get_indices` are
  absorbed into that field, which a concrete Sellmeier formula set
  instantiates.
* `scipy.optimize.fsolve` is an external numerical routine; its output
  `(root, ier)` is an explicit argument of `robust_solve`.
* Python strings are `List Char` (Python strings are sequences of Unicode
  code points, so `split`/`strip`/`index` translate to list operations).
-/

/-- The principal-index triplet returned by the index model. -/
structure Indices where
  n_x : ℝ
  n_y : ℝ
  n_z : ℝ

/-- One of the three dictionary keys of an index triplet. -/
inductive AxisKey where
  | n_x : AxisKey
  | n_y : AxisKey
  | n_z : AxisKey
deriving DecidableEq

/-- Dictionary lookup `indices[key]`. -/
def Indices.get : Indices → AxisKey → ℝ
  | i, .n_x => i.n_x
  | i, .n_y => i.n_y
  | i, .n_z => i.n_z

/-- The configuration record of `configuration.py` (fields the solver reads).
`indexModel` stands for the `get_indices` dispersion model. -/
structure SimulationConfig where
  crystal_name : String
  process_type : String
  wavelength1_nm : ℝ
  wavelength2_nm : ℝ
  wavelength_out_nm : ℝ
  temperature : ℝ
  plane : String
  indexModel : ℝ → ℝ → Indices

/-- `wavelength_out_um = wavelength_out_nm / 1000`. -/
noncomputable def SimulationConfig.wavelength_out_um (cfg : SimulationConfig) : ℝ :=
  cfg.wavelength_out_nm / 1000

/-- `get_indices(target_wavelength, target_temperature)` with `None` defaults:
a missing wavelength falls back to the configured first input wavelength, a
missing temperature to the configured temperature. -/
noncomputable def SimulationConfig.get_indices (cfg : SimulationConfig)
    (target_wavelength target_temperature : Option ℝ) : Indices :=
  cfg.indexModel (target_wavelength.getD cfg.wavelength1_nm)
    (target_temperature.getD cfg.temperature)

/-- `self.plane_config`: plane ↦ (static key, cos² key, sin² key). -/
def plane_config (plane : String) : Option (AxisKey × AxisKey × AxisKey) :=
  if plane = "XZ" then some (.n_y, .n_z, .n_x)
  else if plane = "YZ" then some (.n_x, .n_z, .n_y)
  else if plane = "XY" then some (.n_z, .n_x, .n_y)
  else none

/-- The solver with the plane's axis keys resolved (done once in
`Solver.__init__` via `plane_config[cfg.plane]`). -/
structure Solver where
  cfg : SimulationConfig
  key_static : AxisKey
  key_cos : AxisKey
  key_sin : AxisKey

/-- `Solver.ne_func(n_cos, n_sin)`: the effective-index mixer
`θ ↦ sqrt(n_cos²·n_sin² / (n_cos²·cos²θ + n_sin²·sin²θ))`. -/
noncomputable def ne_func (n_cos n_sin : ℝ) : ℝ → ℝ := fun theta =>
  Real.sqrt ((n_cos ^ 2 * n_sin ^ 2) /
    (n_cos ^ 2 * Real.cos theta ^ 2 + n_sin ^ 2 * Real.sin theta ^ 2))

/-- The preset weight of input 1 set in `Solver.__init__`. -/
noncomputable def Solver.weight1 (s : Solver) : ℝ :=
  if s.cfg.process_type = "SHG" then 0.5
  else s.cfg.wavelength_out_nm / s.cfg.wavelength1_nm

/-- The preset weight of input 2 set in `Solver.__init__`. -/
noncomputable def Solver.weight2 (s : Solver) : ℝ :=
  if s.cfg.process_type = "SHG" then 0.5
  else s.cfg.wavelength_out_nm / s.cfg.wavelength2_nm

/-- `np.deg2rad`. -/
noncomputable def deg2rad (x : ℝ) : ℝ := x * (Real.pi / 180)

/-- `np.rad2deg`. -/
noncomputable def rad2deg (x : ℝ) : ℝ := x * (180 / Real.pi)

/-! ## Python string primitives over `List Char` -/

/-- Python `text.split(sep)` for a one-character separator: the pieces
between the separator occurrences, empty pieces kept. -/
def splitOnChar (sep : Char) : List Char → List (List Char)
  | [] => [[]]
  | c :: rest =>
    if c = sep then [] :: splitOnChar sep rest
    else
      match splitOnChar sep rest with
      | [] => [[c]]
      | p :: ps => (c :: p) :: ps

/-- Python `text.strip()`: whitespace removed from both ends. -/
def stripChars (l : List Char) : List Char :=
  ((l.dropWhile Char.isWhitespace).reverse.dropWhile Char.isWhitespace).reverse

/-- Python `re.findall(r'(\d+)nm', text)`: the maximal digit runs immediately
followed by `nm`, scanned left to right without overlap. -/
def findall_nm : List Char → List (List Char)
  | [] => []
  | c :: rest =>
    if c.isDigit then
      match hA : List.dropWhile Char.isDigit rest with
      | 'n' :: 'm' :: rest2 => (c :: List.takeWhile Char.isDigit rest) :: findall_nm rest2
      | _ => findall_nm (List.dropWhile Char.isDigit rest)
    else findall_nm rest
termination_by l => l.length
decreasing_by
  · simp only [List.length_cons]
    have h1 : (List.dropWhile Char.isDigit rest).length ≤ rest.length :=
      (List.dropWhile_sublist Char.isDigit).length_le
    have h2 : ('n' :: 'm' :: rest2).length = (List.dropWhile Char.isDigit rest).length := by
      rw [hA]
    simp only [List.length_cons] at h2
    omega
  · have h1 : (List.dropWhile Char.isDigit rest).length ≤ rest.length :=
      (List.dropWhile_sublist Char.isDigit).length_le
    simp only [List.length_cons]
    omega
  · simp only [List.length_cons]
    omega

/-- Python `float("…digits…")`: the numeric value of a digit string. -/
def natOfDigits (l : List Char) : ℕ :=
  l.foldl (fun acc c => 10 * acc + (c.toNat - 48)) 0

/-- Python `text.index(c)`: position of the first occurrence. -/
def firstIdxOf (c : Char) : List Char → ℕ
  | [] => 0
  | d :: rest => if d = c then 0 else firstIdxOf c rest + 1

/-! ## Mode-identifier parsing (`Solver.delta_n` and friends) -/

/-- The ordered input polarizations of an OE-notation input part: 𝐎 and 𝐄,
each entering if present, sorted by first-occurrence position. -/
def input_pols (input_part : List Char) : List Char :=
  if input_part.contains '𝐎' then
    if input_part.contains '𝐄' then
      if firstIdxOf '𝐎' input_part ≤ firstIdxOf '𝐄' input_part then ['𝐎', '𝐄']
      else ['𝐄', '𝐎']
    else ['𝐎']
  else if input_part.contains '𝐄' then ['𝐄'] else []

/-- `pol_out = '𝐄' if '𝐄' in output_part.split('(')[0] else '𝐎'`. -/
def output_pol (output_part : List Char) : Char :=
  if (output_part.takeWhile (fun c => ¬ c = '(')).contains '𝐄' then '𝐄' else '𝐎'

/-- `extract_xyz_pol`: the first of 𝐗, 𝐘, 𝐙 (in that fixed order) contained
in the text, if any. -/
def extract_xyz_pol (text : List Char) : Option Char :=
  if text.contains '𝐗' then some '𝐗'
  else if text.contains '𝐘' then some '𝐘'
  else if text.contains '𝐙' then some '𝐙'
  else none

/-- The `xyz_to_key` dictionary; `none` models a `KeyError`. -/
def xyz_to_key : Option Char → Option AxisKey
  | some '𝐗' => some .n_x
  | some '𝐘' => some .n_y
  | some '𝐙' => some .n_z
  | _ => none

/-- `is_xyz_form = any(c in mode_name for c in ['𝐗', '𝐘', '𝐙'])`. -/
def is_xyz_form (mode_name : List Char) : Bool :=
  mode_name.contains '𝐗' || mode_name.contains '𝐘' || mode_name.contains '𝐙'

/-! ## The phase-mismatch evaluator `Solver.delta_n` -/

/-- `Solver.delta_n(mode_name, theta, wavelength1, wavelength2,
wavelength_out, temperature)`: the unified Δn evaluation; `Except.error`
models the raised Python exceptions (`ValueError` for a malformed arrow
split, missing wavelengths or a missing required `theta`; `KeyError` for an
axis letter absent from a beam of an XYZ-notation mode; `IndexError` for an
OE-notation input part with no polarization label). -/
noncomputable def Solver.delta_n (s : Solver) (mode_name : List Char)
    (theta wavelength1 wavelength2 wavelength_out temperature : Option ℝ) :
    Except String ℝ :=
  let wl1 := wavelength1.getD s.cfg.wavelength1_nm
  let wl2 := wavelength2.getD s.cfg.wavelength2_nm
  let wl_out := wavelength_out.getD s.cfg.wavelength_out_nm
  let temp := temperature.getD s.cfg.temperature
  let indices_w1 := s.cfg.indexModel wl1 temp
  let indices_w2 := s.cfg.indexModel wl2 temp
  let indices_out := s.cfg.indexModel wl_out temp
  let parts := splitOnChar '→' mode_name
  if parts.length ≠ 2 then .error "mode name format error" else
  let input_part := stripChars (parts.headD [])
  let output_part := stripChars ((parts.drop 1).headD [])
  if is_xyz_form mode_name then
    let input_beams := splitOnChar '+' input_part
    let pol1 := extract_xyz_pol (input_beams.headD [])
    let pol2 := if 1 < input_beams.length
      then extract_xyz_pol ((input_beams.drop 1).headD []) else pol1
    let pol_out := extract_xyz_pol output_part
    match xyz_to_key pol1, xyz_to_key pol2, xyz_to_key pol_out with
    | some k1, some k2, some k_out =>
      .ok (s.weight1 * indices_w1.get k1 + s.weight2 * indices_w2.get k2
        - indices_out.get k_out)
    | _, _, _ => .error "KeyError"
  else
    let wls := findall_nm mode_name
    if wls.length < 3 then .error "cannot extract wavelengths from mode" else
    let wl_beam1_str : ℝ := natOfDigits (wls.headD [])
    -- wavelength-to-beam binding with a 1 nm tolerance
    let straight := |wl_beam1_str - wl1| < 1
    let indices_beam1 := if straight then indices_w1 else indices_w2
    let indices_beam2 := if straight then indices_w2 else indices_w1
    let actual_wl1 := if straight then wl1 else wl2
    let actual_wl2 := if straight then wl2 else wl1
    match input_pols input_part with
    | [] => .error "IndexError"
    | pol1 :: rest_pols =>
      let pol2 := rest_pols.headD pol1
      let pol_out := output_pol output_part
      if theta = none ∧ (pol1 = '𝐄' ∨ pol2 = '𝐄' ∨ pol_out = '𝐄') then
        .error "theta required to evaluate an E beam"
      else
        let th := theta.getD 0
        let n1 := if pol1 = '𝐎' then indices_beam1.get s.key_static
          else ne_func (indices_beam1.get s.key_cos) (indices_beam1.get s.key_sin) th
        let n2 := if pol2 = '𝐎' then indices_beam2.get s.key_static
          else ne_func (indices_beam2.get s.key_cos) (indices_beam2.get s.key_sin) th
        let n_out := if pol_out = '𝐎' then indices_out.get s.key_static
          else ne_func (indices_out.get s.key_cos) (indices_out.get s.key_sin) th
        let w1 := if s.cfg.process_type = "SHG" then 0.5 else wl_out / actual_wl1
        let w2 := if s.cfg.process_type = "SHG" then 0.5 else wl_out / actual_wl2
        .ok (w1 * n1 + w2 * n2 - n_out)

/-- The characters of a string literal. -/
def strChars (s : String) : List Char := s.data

/-- `self.mode_names` as built in `Solver.__init__`, parameterized by the
digit runs `d1`, `d2`, `dout` that `f"{wavelength:.0f}"` produced for the
two input wavelengths and the output wavelength (the f-string then appends
`nm`). For SHG only `d1` and `dout` appear. -/
def mode_names (process_type : String) (d1 d2 dout : List Char) : List (List Char) :=
  let w1 := d1 ++ strChars "nm"
  let w2 := d2 ++ strChars "nm"
  let wout := dout ++ strChars "nm"
  if process_type = "SHG" then
    [strChars "𝐎 (" ++ w1 ++ strChars ") + 𝐎 (" ++ w1 ++ strChars ") → 𝐄 (" ++ wout ++ strChars ") (Type I)",
     strChars "𝐄 (" ++ w1 ++ strChars ") + 𝐄 (" ++ w1 ++ strChars ") → 𝐎 (" ++ wout ++ strChars ") (Type I)",
     strChars "𝐎 (" ++ w1 ++ strChars ") + 𝐄 (" ++ w1 ++ strChars ") → 𝐄 (" ++ wout ++ strChars ") (Type II)",
     strChars "𝐎 (" ++ w1 ++ strChars ") + 𝐄 (" ++ w1 ++ strChars ") → 𝐎 (" ++ wout ++ strChars ") (Type II)"]
  else
    [strChars "𝐎 (" ++ w1 ++ strChars ") + 𝐎 (" ++ w2 ++ strChars ") → 𝐄 (" ++ wout ++ strChars ") (Type I)",
     strChars "𝐄 (" ++ w1 ++ strChars ") + 𝐄 (" ++ w2 ++ strChars ") → 𝐎 (" ++ wout ++ strChars ") (Type I)",
     strChars "𝐎 (" ++ w1 ++ strChars ") + 𝐄 (" ++ w2 ++ strChars ") → 𝐄 (" ++ wout ++ strChars ") (Type II)",
     strChars "𝐎 (" ++ w2 ++ strChars ") + 𝐄 (" ++ w1 ++ strChars ") → 𝐄 (" ++ wout ++ strChars ") (Type II)",
     strChars "𝐎 (" ++ w1 ++ strChars ") + 𝐄 (" ++ w2 ++ strChars ") → 𝐎 (" ++ wout ++ strChars ") (Type II)",
     strChars "𝐎 (" ++ w2 ++ strChars ") + 𝐄 (" ++ w1 ++ strChars ") → 𝐎 (" ++ wout ++ strChars ") (Type II)"]

/-! ## The critical-angle solver -/

/-- `robust_solve(equation_func, guess)` given the output `(root, ier)` of
the external `scipy.optimize.fsolve` call: the root is accepted only when
the solver converged (`ier = 1`), the root lies in [0, π/2] and the
residual `|equation_func(root)|` is below `1e-4`; otherwise `None`
(modelling `np.nan`). -/
noncomputable def robust_solve (equation_func : ℝ → ℝ) (root : ℝ) (ier : ℤ) : Option ℝ :=
  if ier = 1 then
    if 0 ≤ root ∧ root ≤ Real.pi / 2 then
      if |equation_func root| < 1e-4 then some root else none
    else none
  else none

/-- One entry of the dictionary `Solver.criticalangle` returns: the accepted
root converted to degrees, `none` for the `np.nan` marker. -/
noncomputable def criticalangle_entry (equation_func : ℝ → ℝ) (root : ℝ) (ier : ℤ) :
    Option ℝ :=
  (robust_solve equation_func root ier).map rad2deg

/-! ## The walk-off calculator -/

/-- `calc_walkoff(pol, wavelength_nm)` inside `Solver.walkoff_angle`:
`(0, 0)` for an ordinary beam; otherwise `ρ = θ − arctan((a²/b²)·tan θ)`
with `(a, b)` the plane's index pair at the beam's own wavelength, reported
as `(degrees, milliradians)`. -/
noncomputable def calc_walkoff (cfg : SimulationConfig) (theta_rad : ℝ)
    (pol : Char) (wavelength_nm : ℝ) : ℝ × ℝ :=
  if pol = '𝐎' then (0.0, 0.0)
  else
    let indices := cfg.get_indices (some wavelength_nm) none
    let a := if cfg.plane = "XY" then indices.n_x
      else if cfg.plane = "XZ" then indices.n_z else indices.n_z
    let b := if cfg.plane = "XY" then indices.n_y
      else if cfg.plane = "XZ" then indices.n_x else indices.n_y
    let tan_theta_normal := (a ^ 2 / b ^ 2) * Real.tan theta_rad
    let theta_normal_rad := Real.arctan tan_theta_normal
    let rho_rad := theta_rad - theta_normal_rad
    (rad2deg rho_rad, rho_rad * 1e3)

/-- One entry of `Solver.walkoff_angle`: `none` for a NaN critical angle
(the claim's undefined marker), `Except.error` for the "格式错误" case, and
otherwise the `(polarization, degrees, milliradians)` data of the three
beams that the result string renders. -/
noncomputable def walkoff_angle_entry (cfg : SimulationConfig) (mode_name : List Char)
    (theta_deg : Option ℝ) :
    Option (Except String ((Char × ℝ × ℝ) × (Char × ℝ × ℝ) × (Char × ℝ × ℝ))) :=
  match theta_deg with
  | none => none
  | some td =>
    let theta_rad := deg2rad td
    let parts := splitOnChar '→' mode_name
    if parts.length ≠ 2 then some (.error "格式错误") else
    let input_part := stripChars (parts.headD [])
    let output_part := stripChars ((parts.drop 1).headD [])
    match input_pols input_part with
    | [] => some (.error "IndexError")
    | pol1 :: rest_pols =>
      let pol2 := rest_pols.headD pol1
      let pol_out := output_pol output_part
      let wavelength1 := cfg.wavelength1_nm
      let wavelength2 := if cfg.process_type = "SFG" then cfg.wavelength2_nm else wavelength1
      let wavelength_out := cfg.wavelength_out_nm
      some (.ok ((pol1, calc_walkoff cfg theta_rad pol1 wavelength1),
        (pol2, calc_walkoff cfg theta_rad pol2 wavelength2),
        (pol_out, calc_walkoff cfg theta_rad pol_out wavelength_out)))

/-! ## The effective-nonlinearity calculator -/

/-- One entry of `self.crystal_db` in `configuration.py`: the point group
and the nonlinear tensor coefficients. -/
structure CrystalInfo where
  group : String
  d : List (String × ℝ)

/-- `d_tensor.get(key, 0)`. -/
def dget (d : List (String × ℝ)) (k : String) : ℝ :=
  ((d.find? (fun p => p.1 = k)).map Prod.snd).getD 0

/-- `self.crystal_db` of `configuration.py`. -/
def crystal_db (name : String) : Option CrystalInfo :=
  if name = "BBO" then some ⟨"3m", [("d22", 2.2), ("d31", 0.04), ("d15", 0.04), ("d11", 0.02)]⟩
  else if name = "KDP" then some ⟨"4bar2m", [("d36", 0.39), ("d14", 0.39)]⟩
  else if name = "DKDP" then some ⟨"4bar2m", [("d36", 0.37), ("d14", 0.37)]⟩
  else if name = "CLBO" then some ⟨"4bar2m", [("d36", 0.95), ("d14", 0.95)]⟩
  else if name = "LBO" then some ⟨"mm2", [("d31", 1.05), ("d32", 0.85), ("d33", 0.05), ("d15", 1.05), ("d24", 0.85)]⟩
  else if name = "KTP" then some ⟨"mm2", [("d31", 2.20), ("d32", 3.70), ("d33", 14.6), ("d15", 2.2), ("d24", 3.7)]⟩
  else none

/-- `get_mode_type` inside `Solver.d_eff`: the three-letter matching type
(`OOE`, `EEO`, `OEE`, `OEO`, with mixed inputs normalized to `OE…`), or
`None` for an identifier it cannot classify. -/
def get_mode_type (mode_name : List Char) : Option (List Char) :=
  if ¬ mode_name.contains '→' then none else
  let parts := splitOnChar '→' mode_name
  let input_part := stripChars (parts.headD [])
  let output_part := stripChars ((parts.drop 1).headD [])
  let ipols := input_part.filter (fun c => c == '𝐎' || c == '𝐄')
  let opol := (output_part.find? (fun c => c == '𝐎' || c == '𝐄'))
  match opol with
  | none => none
  | some po =>
    if ipols.length < 2 then none else
    let pol1 := ipols.headD ' '
    let pol2 := (ipols.drop 1).headD ' '
    let toOE := fun c => if c = '𝐎' then 'O' else 'E'
    if pol1 = pol2 then some [toOE pol1, toOE pol2, toOE po]
    else some ['O', 'E', toOE po]

/-- The `d_value` block of `Solver.d_eff`: the signed point-group-specific
tensor contraction, `0.0` when no formula applies. -/
noncomputable def d_contract (group plane : String) (d_tensor : List (String × ℝ))
    (mode_type : List Char) (theta_rad phi_rad : ℝ) : ℝ :=
  if group = "4bar2m" then
    let d36 := dget d_tensor "d36"
    if mode_type = strChars "OOE" then d36 * Real.sin theta_rad * Real.sin (2 * phi_rad)
    else if mode_type = strChars "EEO" then d36 * Real.sin (2 * theta_rad) * Real.cos (2 * phi_rad)
    else if mode_type = strChars "OEE" then d36 * Real.sin (2 * theta_rad) * Real.cos (2 * phi_rad)
    else if mode_type = strChars "OEO" then d36 * Real.sin theta_rad * Real.sin (2 * phi_rad)
    else 0.0
  else if group = "3m" then
    let d31 := dget d_tensor "d31"
    let d11 := dget d_tensor "d11"
    let d22 := dget d_tensor "d22"
    let d15 := dget d_tensor "d15"
    if mode_type = strChars "OOE" then
      d31 * Real.sin theta_rad + (d11 * Real.cos (3 * phi_rad) - d22 * Real.sin (3 * phi_rad)) * Real.cos theta_rad
    else if mode_type = strChars "EEO" then
      d31 * Real.sin theta_rad + (d22 * Real.sin (3 * phi_rad) - d11 * Real.cos (3 * phi_rad)) * Real.cos theta_rad
    else if mode_type = strChars "OEE" then
      (d11 * Real.sin (3 * phi_rad) + d22 * Real.cos (3 * phi_rad)) * Real.cos theta_rad ^ 2
    else if mode_type = strChars "OEO" then
      d15 * Real.sin theta_rad + (d11 * Real.cos (3 * phi_rad) - d22 * Real.sin (3 * phi_rad)) * Real.cos theta_rad
    else 0.0
  else if group = "mm2" then
    let d31 := dget d_tensor "d31"
    let d32 := dget d_tensor "d32"
    let d33 := dget d_tensor "d33"
    if plane = "XY" then
      if mode_type = strChars "OOE" then d31 * Real.cos phi_rad ^ 2 + d32 * Real.sin phi_rad ^ 2
      else if mode_type = strChars "EEO" then d33
      else 0.0
    else if plane = "YZ" then
      if mode_type = strChars "OOE" then d31 * Real.cos theta_rad
      else if mode_type = strChars "OEE" ∨ mode_type = strChars "OEO" then d31 * Real.sin theta_rad
      else 0.0
    else
      if mode_type = strChars "OOE" then d32 * Real.cos theta_rad
      else if mode_type = strChars "OEE" ∨ mode_type = strChars "OEO" then d32 * Real.sin theta_rad
      else 0.0
  else 0.0

/-- One entry of `Solver.d_eff` for a mode with the given critical angle in
degrees: the point-group-specific tensor contraction, in absolute value,
and `0.0` when the mode type, the plane or the symmetry class has no
formula. `crystal_info` is `crystal_db[cfg.crystal_name]`. -/
noncomputable def d_eff_entry (cfg : SimulationConfig) (crystal_info : CrystalInfo)
    (mode_name : List Char) (critical_angle_deg : ℝ) (selected_phi : Option ℝ) : ℝ :=
  match get_mode_type mode_name with
  | none => 0.0
  | some mode_type =>
    if cfg.plane = "XY" ∨ cfg.plane = "XZ" ∨ cfg.plane = "YZ" then
      let theta_rad := if cfg.plane = "XY" then deg2rad 90.0 else deg2rad critical_angle_deg
      let phi_rad :=
        if cfg.plane = "XY" then deg2rad critical_angle_deg
        else if cfg.plane = "XZ" then deg2rad (selected_phi.getD 0.0)
        else deg2rad (selected_phi.getD 90.0)
      |d_contract crystal_info.group cfg.plane crystal_info.d mode_type theta_rad phi_rad|
    else 0.0

/-! ## The acceptance-bandwidth analyzer -/

/-- `np.sinc`: `sin(πx)/(πx)`, 1 at 0. -/
noncomputable def np_sinc (x : ℝ) : ℝ :=
  if x = 0 then 1 else Real.sin (Real.pi * x) / (Real.pi * x)

/-- The conversion-efficiency model shared by the three acceptance scans:
`Δk = (2π/λ_out[µm])·Δn`, then `η = sinc(Δk·10⁴/(2π))²` (the `10⁴` factor
embeds the 1 cm interaction length in µm). -/
noncomputable def conversion_efficiency (wavelength_out_um dn : ℝ) : ℝ :=
  let delta_k := (Real.pi * 2 / wavelength_out_um) * dn
  (np_sinc (delta_k * 1e4 / (2 * Real.pi))) ^ 2

/-- `theta_axis` of `Solver.acceptance_angle`: sample `k` (for
`k < 2·step`) of `np.deg2rad(θc) + np.arange(-step, step)·res·1e-3`. -/
noncomputable def acceptance_angle_axis (theta_critical_deg : ℝ) (step : ℕ) (res : ℝ) :
    List ℝ :=
  (List.range (2 * step)).map
    (fun (k : ℕ) => deg2rad theta_critical_deg + ((k : ℝ) - (step : ℝ)) * res * 1e-3)

/-- `wavelength1_axis` of `Solver.acceptance_wavelength`:
`cfg.wavelength1_nm + np.arange(-step, step)·res`. -/
noncomputable def acceptance_wavelength_axis (cfg : SimulationConfig) (step : ℕ) (res : ℝ) :
    List ℝ :=
  (List.range (2 * step)).map (fun (k : ℕ) => cfg.wavelength1_nm + ((k : ℝ) - (step : ℝ)) * res)

/-- `temperature_axis` of `Solver.acceptance_temperature`:
`cfg.temperature + np.arange(-step, step)·res`. -/
noncomputable def acceptance_temperature_axis (cfg : SimulationConfig) (step : ℕ) (res : ℝ) :
    List ℝ :=
  (List.range (2 * step)).map (fun (k : ℕ) => cfg.temperature + ((k : ℝ) - (step : ℝ)) * res)

/-- The efficiency at sample `k` of the angle scan:
`delta_n` at the scan angle (other variables at their configured values)
pushed through the sinc² model. -/
noncomputable def acceptance_angle_efficiency (s : Solver) (mode_name : List Char)
    (theta_critical_deg : ℝ) (step : ℕ) (res : ℝ) (k : ℕ) : Except String ℝ :=
  (s.delta_n mode_name (some ((acceptance_angle_axis theta_critical_deg step res).getD k 0))
    none none none none).map (conversion_efficiency s.cfg.wavelength_out_um)

/-! ## The temperature-phase-matching scanner -/

/-- `np.arange(start, stop, step)` for a positive step:
`start + k·step` for `k < ⌈(stop − start)/step⌉`. -/
noncomputable def np_arange (start stop step : ℝ) : List ℝ :=
  (List.range (Int.ceil ((stop - start) / step)).toNat).map
    (fun (k : ℕ) => start + (k : ℝ) * step)

/-- The fields of the dictionary `Solver.temperature_phase_matching`
returns that the claims are about. -/
structure TPMResult where
  matching_temperatures : List ℝ
  temperature_axis : List ℝ
  phase_mismatch : List ℝ

/-- `Solver.temperature_phase_matching(target_mode, temperature_range,
temp_step)`, with `dn` the sampled mismatch function
`temp ↦ self.delta_n(target_mode, temperature=temp)`: a dense grid
`np.arange(temp_min, temp_max + temp_step, temp_step)`, the mismatch curve
over it, and a linearly interpolated matching temperature for every
adjacent pair with `pm[i]·pm[i+1] ≤ 0` whose difference exceeds the
`1e-10` flatness guard. -/
noncomputable def temperature_phase_matching (dn : ℝ → ℝ)
    (temp_min temp_max temp_step : ℝ) : TPMResult :=
  let temperature_axis := np_arange temp_min (temp_max + temp_step) temp_step
  let phase_mismatch := temperature_axis.map dn
  let matching_temperatures :=
    (List.range (phase_mismatch.length - 1)).filterMap (fun i =>
      let pmi := phase_mismatch.getD i 0
      let pmi1 := phase_mismatch.getD (i + 1) 0
      let ti := temperature_axis.getD i 0
      let ti1 := temperature_axis.getD (i + 1) 0
      if pmi * pmi1 ≤ 0 ∧ |pmi1 - pmi| > 1e-10 then
        some (ti - pmi * (ti1 - ti) / (pmi1 - pmi))
      else none)
  ⟨matching_temperatures, temperature_axis, phase_mismatch⟩

/-- The per-beam refractive index of spec §4.2: the plane's static
principal index for an ordinary beam, the mixed index at the propagation
angle for an extraordinary beam, evaluated at the beam's own wavelength.
Spec-side companion used to state the weighting claim. -/
noncomputable def beam_n (s : Solver) (wavelength_nm temp : ℝ) (pol : Char) (th : ℝ) : ℝ :=
  if pol = '𝐎' then (s.cfg.indexModel wavelength_nm temp).get s.key_static
  else ne_func ((s.cfg.indexModel wavelength_nm temp).get s.key_cos)
    ((s.cfg.indexModel wavelength_nm temp).get s.key_sin) th

/-- The spec's weighting rule for an angle-tunable evaluation (spec §4.2
steps 3–4): 0.5/0.5 for SHG, `λ_out/λ_beam` for SFG, each input beam's
weight formed from that beam's own effective wavelength. -/
noncomputable def delta_n_oe_spec (s : Solver) (b1 b2 wl_out temp : ℝ)
    (pol1 pol2 pol_out : Char) (th : ℝ) : ℝ :=
  let w1 := if s.cfg.process_type = "SHG" then 0.5 else wl_out / b1
  let w2 := if s.cfg.process_type = "SHG" then 0.5 else wl_out / b2
  w1 * beam_n s b1 temp pol1 th + w2 * beam_n s b2 temp pol2 th
    - beam_n s wl_out temp pol_out th

/-- A concrete SFG solver used by witnesses: plane XZ, inputs 1064 nm and
532 nm, output 1064/3 nm, index model returning the wavelength itself on
every axis. -/
noncomputable def sample_sfg_solver : Solver :=
  ⟨⟨"LBO", "SFG", 1064, 532, 1064 / 3, 20, "XZ", fun wl _ => ⟨wl, wl, wl⟩⟩,
    AxisKey.n_y, AxisKey.n_z, AxisKey.n_x⟩

/-- A concrete SHG solver used by counterexamples and witnesses: plane XZ,
input 1064 nm, output 532 nm, constant index model. -/
noncomputable def sample_shg_solver : Solver :=
  ⟨⟨"KDP", "SHG", 1064, 1064, 532, 20, "XZ", fun _ _ => ⟨1, 1, 1⟩⟩,
    AxisKey.n_y, AxisKey.n_z, AxisKey.n_x⟩

/-- An SFG configuration whose index model varies with wavelength
(`n_z = λ/532`), used to exhibit the walk-off calculator's slot-order
wavelength assignment on a swapped mode identifier. -/
noncomputable def sample_swapped_cfg : SimulationConfig :=
  ⟨"LBO", "SFG", 1064, 532, 1064 / 3, 20, "XZ", fun wl _ => ⟨1, 1, wl / 532⟩⟩

/-- The exact raise condition of `Solver.delta_n` (the amended claim C4):
not exactly one arrow; or an XYZ-notation identifier one of whose three
beam segments carries no axis letter; or an OE-notation identifier with
fewer than three extractable wavelengths, or whose input part carries no
polarization letter, or that needs an extraordinary index while `theta` is
absent. -/
def delta_n_raises (mode_name : List Char) (theta : Option ℝ) : Prop :=
  let parts := splitOnChar '→' mode_name
  let input_part := stripChars (parts.headD [])
  let output_part := stripChars ((parts.drop 1).headD [])
  parts.length ≠ 2 ∨
  (is_xyz_form mode_name = true ∧
    (let input_beams := splitOnChar '+' input_part
     let pol1 := extract_xyz_pol (input_beams.headD [])
     let pol2 := if 1 < input_beams.length
       then extract_xyz_pol ((input_beams.drop 1).headD []) else pol1
     xyz_to_key pol1 = none ∨ xyz_to_key pol2 = none ∨
       xyz_to_key (extract_xyz_pol output_part) = none)) ∨
  (is_xyz_form mode_name = false ∧
    ((findall_nm mode_name).length < 3 ∨
     input_pols input_part = [] ∨
     (theta = none ∧
       ((input_pols input_part).headD ' ' = '𝐄' ∨
        ((input_pols input_part).drop 1).headD ((input_pols input_part).headD ' ') = '𝐄' ∨
        output_pol output_part = '𝐄'))))

/-- The walk-off formula as the spec states it (§4.4):
`ρ = θ − atan((a²/b²)·tanθ)` with `(a, b)` the two principal indices of the
active plane — XY → (n_x, n_y), XZ → (n_z, n_x), YZ → (n_z, n_y) — at the
beam's own wavelength; reported as (degrees, milliradians). Spec-side
companion used to state the walk-off claim. -/
noncomputable def walkoff_spec (cfg : SimulationConfig) (theta_rad wavelength_nm : ℝ) :
    ℝ × ℝ :=
  let n := cfg.indexModel wavelength_nm cfg.temperature
  let ab : ℝ × ℝ :=
    if cfg.plane = "XY" then (n.n_x, n.n_y)
    else if cfg.plane = "XZ" then (n.n_z, n.n_x)
    else (n.n_z, n.n_y)
  let rho := theta_rad - Real.arctan ((ab.1 ^ 2 / ab.2 ^ 2) * Real.tan theta_rad)
  (rad2deg rho, rho * 1e3)

/-- A text segment of a generated mode name that carries no digits, no
arrow and no XYZ axis letter. -/
def plain_seg (l : List Char) : Prop :=
  ∀ c ∈ l, c.isDigit = false ∧ c ≠ '→' ∧ c ≠ '𝐗' ∧ c ≠ '𝐘' ∧ c ≠ '𝐙'

instance (l : List Char) : Decidable (plain_seg l) := by
  unfold plain_seg
  infer_instance

/-! ## Helper lemmas about the string primitives -/

theorem digit_not_special (c : Char) (h : c.isDigit = true) :
    c ≠ '→' ∧ c ≠ '𝐗' ∧ c ≠ '𝐘' ∧ c ≠ '𝐙' := by
  refine ⟨?_, ?_, ?_, ?_⟩ <;> intro hc <;> rw [hc] at h <;> exact absurd h (by decide)

theorem splitOnChar_append_sep (sep : Char) (A B : List Char) (hA : sep ∉ A) :
    splitOnChar sep (A ++ sep :: B) = A :: splitOnChar sep B := by
  induction A with
  | nil => simp [splitOnChar]
  | cons c rest ih =>
    have hc : ¬ c = sep := by
      intro hc
      exact hA (hc ▸ List.mem_cons_self c rest)
    have hr : sep ∉ rest := fun hm => hA (List.mem_cons_of_mem c hm)
    simp only [List.cons_append, splitOnChar, if_neg hc]
    have he : List.append rest (sep :: B) = rest ++ sep :: B := rfl
    rw [he, ih hr]

theorem splitOnChar_of_not_mem (sep : Char) (l : List Char) (h : sep ∉ l) :
    splitOnChar sep l = [l] := by
  induction l with
  | nil => rfl
  | cons c rest ih =>
    have hc : ¬ c = sep := by
      intro hc
      exact h (hc ▸ List.mem_cons_self c rest)
    have hr : sep ∉ rest := fun hm => h (List.mem_cons_of_mem c hm)
    simp only [splitOnChar, if_neg hc, ih hr]

theorem mem_dropWhile_of_mem (p : Char → Bool) (c : Char) (l : List Char)
    (hmem : c ∈ l) (hc : p c = false) : c ∈ l.dropWhile p := by
  induction l with
  | nil => cases hmem
  | cons a t ih =>
    by_cases ha : p a = true
    · rw [List.dropWhile_cons_of_pos ha]
      rcases List.mem_cons.mp hmem with rfl | hm
      · rw [hc] at ha
        cases ha
      · exact ih hm
    · rw [List.dropWhile_cons_of_neg ha]
      exact hmem

theorem mem_stripChars_of_mem (c : Char) (l : List Char)
    (hmem : c ∈ l) (hc : c.isWhitespace = false) : c ∈ stripChars l := by
  unfold stripChars
  rw [List.mem_reverse]
  apply mem_dropWhile_of_mem _ _ _ _ hc
  rw [List.mem_reverse]
  exact mem_dropWhile_of_mem _ _ _ hmem hc

theorem findall_nm_nil : findall_nm [] = [] := by
  simp [findall_nm]

theorem findall_nm_cons_not_digit (c : Char) (l : List Char) (h : c.isDigit = false) :
    findall_nm (c :: l) = findall_nm l := by
  rw [findall_nm]
  simp [h]

theorem findall_nm_nil_of_no_digit (l : List Char) (h : ∀ c ∈ l, c.isDigit = false) :
    findall_nm l = [] := by
  induction l with
  | nil => exact findall_nm_nil
  | cons c rest ih =>
    rw [findall_nm_cons_not_digit c rest (h c (List.mem_cons_self c rest))]
    exact ih (fun d hd => h d (List.mem_cons_of_mem c hd))

theorem findall_nm_append_no_digit (l r : List Char) (h : ∀ c ∈ l, c.isDigit = false) :
    findall_nm (l ++ r) = findall_nm r := by
  induction l with
  | nil => rfl
  | cons c rest ih =>
    rw [List.cons_append,
      findall_nm_cons_not_digit c _ (h c (List.mem_cons_self c rest))]
    exact ih (fun d hd => h d (List.mem_cons_of_mem c hd))

theorem dropWhile_append_of_all (p : Char → Bool) (l r : List Char)
    (h : ∀ c ∈ l, p c = true) : (l ++ r).dropWhile p = r.dropWhile p := by
  induction l with
  | nil => rfl
  | cons c rest ih =>
    rw [List.cons_append, List.dropWhile_cons_of_pos (h c (List.mem_cons_self c rest))]
    exact ih (fun d hd => h d (List.mem_cons_of_mem c hd))

theorem takeWhile_append_of_all (p : Char → Bool) (l r : List Char)
    (h : ∀ c ∈ l, p c = true) : (l ++ r).takeWhile p = l ++ r.takeWhile p := by
  induction l with
  | nil => rfl
  | cons c rest ih =>
    rw [List.cons_append, List.takeWhile_cons_of_pos (h c (List.mem_cons_self c rest)),
      ih (fun d hd => h d (List.mem_cons_of_mem c hd))]
    rfl

theorem findall_nm_digits (D rest : List Char) (hne : D ≠ [])
    (hD : ∀ c ∈ D, c.isDigit = true) :
    findall_nm (D ++ 'n' :: 'm' :: rest) = D :: findall_nm rest := by
  match D, hne with
  | d :: D2, _ =>
    have hd : d.isDigit = true := hD d (List.mem_cons_self d D2)
    have hD2 : ∀ c ∈ D2, Char.isDigit c = true :=
      fun c hc => hD c (List.mem_cons_of_mem d hc)
    have hdrop : List.dropWhile Char.isDigit (D2 ++ 'n' :: 'm' :: rest)
        = 'n' :: 'm' :: rest := by
      rw [dropWhile_append_of_all Char.isDigit D2 _ hD2,
        List.dropWhile_cons_of_neg (by decide)]
    have htake : List.takeWhile Char.isDigit (D2 ++ 'n' :: 'm' :: rest) = D2 := by
      rw [takeWhile_append_of_all Char.isDigit D2 _ hD2,
        List.takeWhile_cons_of_neg (by decide)]
      simp
    rw [List.cons_append, findall_nm]
    simp only [hd, if_true]
    split
    · rename_i rest2 hA
      rw [hdrop] at hA
      cases hA
      rw [htake]
    · rename_i hx hA
      exact absurd hdrop (hA rest)

theorem input_pols_ne_nil (l : List Char) (h : '𝐎' ∈ l ∨ '𝐄' ∈ l) :
    input_pols l ≠ [] := by
  unfold input_pols
  rcases h with h | h <;> simp [h] <;> split_ifs <;> simp

/-! ## A well-formed OE mode name never makes `delta_n` raise -/

/-- Any OE-notation mode name of the shape generated in `Solver.__init__`
(text segments around three formatted wavelengths, one arrow, at least one
polarization letter among the inputs) evaluates without an exception once
`theta` is supplied. -/
theorem delta_n_oe_ok (s : Solver) (θ : ℝ) (w1 w2 wo t : Option ℝ)
    (a1 a2 a3 b1 b2 D1 D2 D3 : List Char)
    (hD1 : D1 ≠ []) (hD1d : ∀ c ∈ D1, c.isDigit = true)
    (hD2 : D2 ≠ []) (hD2d : ∀ c ∈ D2, c.isDigit = true)
    (hD3 : D3 ≠ []) (hD3d : ∀ c ∈ D3, c.isDigit = true)
    (h1 : plain_seg a1) (h2 : plain_seg a2) (h3 : plain_seg a3)
    (h4 : plain_seg b1) (h5 : plain_seg b2)
    (hpol : '𝐎' ∈ a1 ∨ '𝐄' ∈ a1) :
    ∃ v, s.delta_n
      ((a1 ++ D1 ++ strChars "nm" ++ a2 ++ D2 ++ strChars "nm" ++ a3)
        ++ '→' :: (b1 ++ D3 ++ strChars "nm" ++ b2))
      (some θ) w1 w2 wo t = Except.ok v := by
  have hnm : strChars "nm" = ['n', 'm'] := rfl
  -- no special character occurs in the input side or the output side
  have hAall : ∀ c ∈ a1 ++ D1 ++ strChars "nm" ++ a2 ++ D2 ++ strChars "nm" ++ a3,
      c ≠ '→' ∧ c ≠ '𝐗' ∧ c ≠ '𝐘' ∧ c ≠ '𝐙' := by
    intro c hc
    simp only [hnm, List.append_assoc, List.cons_append, List.nil_append,
      List.mem_append, List.mem_cons] at hc
    rcases hc with h | h | rfl | rfl | h | h | rfl | rfl | h
    · exact (h1 c h).2
    · exact digit_not_special c (hD1d c h)
    · exact ⟨by decide, by decide, by decide, by decide⟩
    · exact ⟨by decide, by decide, by decide, by decide⟩
    · exact (h2 c h).2
    · exact digit_not_special c (hD2d c h)
    · exact ⟨by decide, by decide, by decide, by decide⟩
    · exact ⟨by decide, by decide, by decide, by decide⟩
    · exact (h3 c h).2
  have hBall : ∀ c ∈ b1 ++ D3 ++ strChars "nm" ++ b2,
      c ≠ '→' ∧ c ≠ '𝐗' ∧ c ≠ '𝐘' ∧ c ≠ '𝐙' := by
    intro c hc
    simp only [hnm, List.append_assoc, List.cons_append, List.nil_append,
      List.mem_append, List.mem_cons] at hc
    rcases hc with h | h | rfl | rfl | h
    · exact (h4 c h).2
    · exact digit_not_special c (hD3d c h)
    · exact ⟨by decide, by decide, by decide, by decide⟩
    · exact ⟨by decide, by decide, by decide, by decide⟩
    · exact (h5 c h).2
  have harrA : '→' ∉ a1 ++ D1 ++ strChars "nm" ++ a2 ++ D2 ++ strChars "nm" ++ a3 :=
    fun hm => (hAall _ hm).1 rfl
  have hsplit : splitOnChar '→'
      ((a1 ++ D1 ++ strChars "nm" ++ a2 ++ D2 ++ strChars "nm" ++ a3)
        ++ '→' :: (b1 ++ D3 ++ strChars "nm" ++ b2))
      = [a1 ++ D1 ++ strChars "nm" ++ a2 ++ D2 ++ strChars "nm" ++ a3,
         b1 ++ D3 ++ strChars "nm" ++ b2] := by
    rw [splitOnChar_append_sep _ _ _ harrA,
      splitOnChar_of_not_mem _ _ (fun hm => (hBall _ hm).1 rfl)]
  have hxyz : is_xyz_form
      ((a1 ++ D1 ++ strChars "nm" ++ a2 ++ D2 ++ strChars "nm" ++ a3)
        ++ '→' :: (b1 ++ D3 ++ strChars "nm" ++ b2)) = false := by
    have hX : ∀ c : Char, (c = '𝐗' ∨ c = '𝐘' ∨ c = '𝐙') →
        c ∉ (a1 ++ D1 ++ strChars "nm" ++ a2 ++ D2 ++ strChars "nm" ++ a3)
          ++ '→' :: (b1 ++ D3 ++ strChars "nm" ++ b2) := by
      intro c hcs hm
      rcases List.mem_append.mp hm with h | h
      · rcases hcs with rfl | rfl | rfl
        · exact (hAall _ h).2.1 rfl
        · exact (hAall _ h).2.2.1 rfl
        · exact (hAall _ h).2.2.2 rfl
      · rcases List.mem_cons.mp h with heq | h
        · rcases hcs with rfl | rfl | rfl <;> exact absurd heq (by decide)
        · rcases hcs with rfl | rfl | rfl
          · exact (hBall _ h).2.1 rfl
          · exact (hBall _ h).2.2.1 rfl
          · exact (hBall _ h).2.2.2 rfl
    have f : ∀ cc : Char, (cc = '𝐗' ∨ cc = '𝐘' ∨ cc = '𝐙') →
        ((a1 ++ D1 ++ strChars "nm" ++ a2 ++ D2 ++ strChars "nm" ++ a3)
          ++ '→' :: (b1 ++ D3 ++ strChars "nm" ++ b2)).contains cc = false := by
      intro cc hcc
      by_contra hne
      have htru : ((a1 ++ D1 ++ strChars "nm" ++ a2 ++ D2 ++ strChars "nm" ++ a3)
          ++ '→' :: (b1 ++ D3 ++ strChars "nm" ++ b2)).contains cc = true := by
        revert hne
        cases ((a1 ++ D1 ++ strChars "nm" ++ a2 ++ D2 ++ strChars "nm" ++ a3)
          ++ '→' :: (b1 ++ D3 ++ strChars "nm" ++ b2)).contains cc <;> simp
      obtain ⟨a, ha, hbeq⟩ := List.contains_iff_exists_mem_beq.mp htru
      have heq : cc = a := by simpa using hbeq
      subst heq
      exact hX cc hcc ha
    rw [is_xyz_form, f '𝐗' (Or.inl rfl), f '𝐘' (Or.inr (Or.inl rfl)),
      f '𝐙' (Or.inr (Or.inr rfl))]
    rfl
  have hfind : findall_nm
      ((a1 ++ D1 ++ strChars "nm" ++ a2 ++ D2 ++ strChars "nm" ++ a3)
        ++ '→' :: (b1 ++ D3 ++ strChars "nm" ++ b2)) = [D1, D2, D3] := by
    have hflat : (a1 ++ D1 ++ strChars "nm" ++ a2 ++ D2 ++ strChars "nm" ++ a3)
        ++ '→' :: (b1 ++ D3 ++ strChars "nm" ++ b2)
        = a1 ++ (D1 ++ 'n' :: 'm' :: (a2 ++ (D2 ++ 'n' :: 'm'
          :: (a3 ++ '→' :: (b1 ++ (D3 ++ 'n' :: 'm' :: b2)))))) := by
      simp only [hnm, List.append_assoc, List.cons_append, List.nil_append]
    rw [hflat, findall_nm_append_no_digit a1 _ (fun c hc => (h1 c hc).1),
      findall_nm_digits D1 _ hD1 hD1d,
      findall_nm_append_no_digit a2 _ (fun c hc => (h2 c hc).1),
      findall_nm_digits D2 _ hD2 hD2d,
      findall_nm_append_no_digit a3 _ (fun c hc => (h3 c hc).1),
      findall_nm_cons_not_digit '→' _ (by decide),
      findall_nm_append_no_digit b1 _ (fun c hc => (h4 c hc).1),
      findall_nm_digits D3 _ hD3 hD3d,
      findall_nm_nil_of_no_digit b2 (fun c hc => (h5 c hc).1)]
  have hpolA : '𝐎' ∈ stripChars (a1 ++ D1 ++ strChars "nm" ++ a2 ++ D2 ++ strChars "nm" ++ a3)
      ∨ '𝐄' ∈ stripChars (a1 ++ D1 ++ strChars "nm" ++ a2 ++ D2 ++ strChars "nm" ++ a3) := by
    rcases hpol with h | h
    · refine Or.inl (mem_stripChars_of_mem _ _ ?_ (by decide))
      simp only [List.append_assoc, List.mem_append]
      exact Or.inl h
    · refine Or.inr (mem_stripChars_of_mem _ _ ?_ (by decide))
      simp only [List.append_assoc, List.mem_append]
      exact Or.inl h
  obtain ⟨p1, ps, hip⟩ := List.exists_cons_of_ne_nil (input_pols_ne_nil _ hpolA)
  unfold Solver.delta_n
  rw [hsplit]
  simp only [List.length_cons, List.length_nil, List.headD_cons, List.drop_succ_cons,
    List.drop_zero, hxyz, hfind, hip]
  rw [if_neg (by simp)]
  exact ⟨_, rfl⟩

theorem deg2rad_rad2deg (x : ℝ) : deg2rad (rad2deg x) = x := by
  unfold deg2rad rad2deg
  have hpi := Real.pi_ne_zero
  field_simp

/-! ## Claim C1: the critical-angle solver validation gate -/

/-- C1: whatever the external root-finder reports, a mode's critical-angle
entry is either the NaN marker or an angle θc ∈ [0°, 90°] whose residual
`|delta_n(θc)|` is below `1e-4`; non-convergence, an out-of-range root or a
failed residual check all yield the NaN marker; and on the mode names the
solver enumerates (any formatted wavelength digit strings), `delta_n` with
the angle supplied returns a value, so the solver never raises. -/
theorem C1_criticalangle_guard (equation_func : ℝ → ℝ) (root θc : ℝ) (ier : ℤ)
    (s : Solver) (mode d1 d2 dout : List Char) (θ : ℝ)
    (hd1 : d1 ≠ []) (hd1d : ∀ c ∈ d1, c.isDigit = true)
    (hd2 : d2 ≠ []) (hd2d : ∀ c ∈ d2, c.isDigit = true)
    (hdo : dout ≠ []) (hdod : ∀ c ∈ dout, c.isDigit = true)
    (hmode : mode ∈ mode_names s.cfg.process_type d1 d2 dout) :
    (criticalangle_entry equation_func root ier = some θc →
      0 ≤ θc ∧ θc ≤ 90 ∧ |equation_func (deg2rad θc)| < 1e-4) ∧
    (ier ≠ 1 ∨ ¬ (0 ≤ root ∧ root ≤ Real.pi / 2) ∨ ¬ |equation_func root| < 1e-4 →
      criticalangle_entry equation_func root ier = none) ∧
    (∃ v, s.delta_n mode (some θ) none none none none = Except.ok v) := by
  have hpi := Real.pi_pos
  refine ⟨?_, ?_, ?_⟩
  · intro h
    unfold criticalangle_entry robust_solve at h
    split_ifs at h with hier hrange hres
    · obtain rfl : rad2deg root = θc := Option.some.inj h
      refine ⟨?_, ?_, ?_⟩
      · exact mul_nonneg hrange.1 (by positivity)
      · calc root * (180 / Real.pi) ≤ (Real.pi / 2) * (180 / Real.pi) :=
            mul_le_mul_of_nonneg_right hrange.2 (by positivity)
          _ = 90 := by field_simp; ring
      · rw [deg2rad_rad2deg]
        exact hres
    · cases h
    · cases h
    · cases h
  · intro h
    unfold criticalangle_entry robust_solve
    rcases h with h | h | h
    · rw [if_neg h]
      rfl
    · split_ifs <;> first | rfl | exact absurd (by assumption) h
    · split_ifs <;> first | rfl | exact absurd (by assumption) h
  · by_cases hp : s.cfg.process_type = "SHG"
    · rw [hp] at hmode
      unfold mode_names at hmode
      rw [if_pos rfl] at hmode
      have e1 : strChars ") → 𝐄 (" = strChars ") " ++ '→' :: strChars " 𝐄 (" := rfl
      have e2 : strChars ") → 𝐎 (" = strChars ") " ++ '→' :: strChars " 𝐎 (" := rfl
      rcases List.mem_cons.mp hmode with rfl | hmode
      · have hm : strChars "𝐎 (" ++ (d1 ++ strChars "nm") ++ strChars ") + 𝐎 ("
            ++ (d1 ++ strChars "nm") ++ strChars ") → 𝐄 ("
            ++ (dout ++ strChars "nm") ++ strChars ") (Type I)"
            = (strChars "𝐎 (" ++ d1 ++ strChars "nm" ++ strChars ") + 𝐎 ("
              ++ d1 ++ strChars "nm" ++ strChars ") ")
              ++ '→' :: (strChars " 𝐄 (" ++ dout ++ strChars "nm" ++ strChars ") (Type I)") := by
          simp only [e1, List.append_assoc, List.cons_append]
        rw [hm]
        exact delta_n_oe_ok s θ none none none none _ _ _ _ _ d1 d1 dout hd1 hd1d hd1 hd1d
          hdo hdod (by decide) (by decide) (by decide) (by decide) (by decide)
          (Or.inl (by decide))
      rcases List.mem_cons.mp hmode with rfl | hmode
      · have hm : strChars "𝐄 (" ++ (d1 ++ strChars "nm") ++ strChars ") + 𝐄 ("
            ++ (d1 ++ strChars "nm") ++ strChars ") → 𝐎 ("
            ++ (dout ++ strChars "nm") ++ strChars ") (Type I)"
            = (strChars "𝐄 (" ++ d1 ++ strChars "nm" ++ strChars ") + 𝐄 ("
              ++ d1 ++ strChars "nm" ++ strChars ") ")
              ++ '→' :: (strChars " 𝐎 (" ++ dout ++ strChars "nm" ++ strChars ") (Type I)") := by
          simp only [e2, List.append_assoc, List.cons_append]
        rw [hm]
        exact delta_n_oe_ok s θ none none none none _ _ _ _ _ d1 d1 dout hd1 hd1d hd1 hd1d
          hdo hdod (by decide) (by decide) (by decide) (by decide) (by decide)
          (Or.inr (by decide))
      rcases List.mem_cons.mp hmode with rfl | hmode
      · have hm : strChars "𝐎 (" ++ (d1 ++ strChars "nm") ++ strChars ") + 𝐄 ("
            ++ (d1 ++ strChars "nm") ++ strChars ") → 𝐄 ("
            ++ (dout ++ strChars "nm") ++ strChars ") (Type II)"
            = (strChars "𝐎 (" ++ d1 ++ strChars "nm" ++ strChars ") + 𝐄 ("
              ++ d1 ++ strChars "nm" ++ strChars ") ")
              ++ '→' :: (strChars " 𝐄 (" ++ dout ++ strChars "nm" ++ strChars ") (Type II)") := by
          simp only [e1, List.append_assoc, List.cons_append]
        rw [hm]
        exact delta_n_oe_ok s θ none none none none _ _ _ _ _ d1 d1 dout hd1 hd1d hd1 hd1d
          hdo hdod (by decide) (by decide) (by decide) (by decide) (by decide)
          (Or.inl (by decide))
      rcases List.mem_cons.mp hmode with rfl | hmode
      · have hm : strChars "𝐎 (" ++ (d1 ++ strChars "nm") ++ strChars ") + 𝐄 ("
            ++ (d1 ++ strChars "nm") ++ strChars ") → 𝐎 ("
            ++ (dout ++ strChars "nm") ++ strChars ") (Type II)"
            = (strChars "𝐎 (" ++ d1 ++ strChars "nm" ++ strChars ") + 𝐄 ("
              ++ d1 ++ strChars "nm" ++ strChars ") ")
              ++ '→' :: (strChars " 𝐎 (" ++ dout ++ strChars "nm" ++ strChars ") (Type II)") := by
          simp only [e2, List.append_assoc, List.cons_append]
        rw [hm]
        exact delta_n_oe_ok s θ none none none none _ _ _ _ _ d1 d1 dout hd1 hd1d hd1 hd1d
          hdo hdod (by decide) (by decide) (by decide) (by decide) (by decide)
          (Or.inl (by decide))
      cases hmode
    · unfold mode_names at hmode
      rw [if_neg hp] at hmode
      have e1 : strChars ") → 𝐄 (" = strChars ") " ++ '→' :: strChars " 𝐄 (" := rfl
      have e2 : strChars ") → 𝐎 (" = strChars ") " ++ '→' :: strChars " 𝐎 (" := rfl
      rcases List.mem_cons.mp hmode with rfl | hmode
      · have hm : strChars "𝐎 (" ++ (d1 ++ strChars "nm") ++ strChars ") + 𝐎 ("
            ++ (d2 ++ strChars "nm") ++ strChars ") → 𝐄 ("
            ++ (dout ++ strChars "nm") ++ strChars ") (Type I)"
            = (strChars "𝐎 (" ++ d1 ++ strChars "nm" ++ strChars ") + 𝐎 ("
              ++ d2 ++ strChars "nm" ++ strChars ") ")
              ++ '→' :: (strChars " 𝐄 (" ++ dout ++ strChars "nm" ++ strChars ") (Type I)") := by
          simp only [e1, List.append_assoc, List.cons_append]
        rw [hm]
        exact delta_n_oe_ok s θ none none none none _ _ _ _ _ d1 d2 dout hd1 hd1d hd2 hd2d
          hdo hdod (by decide) (by decide) (by decide) (by decide) (by decide)
          (Or.inl (by decide))
      rcases List.mem_cons.mp hmode with rfl | hmode
      · have hm : strChars "𝐄 (" ++ (d1 ++ strChars "nm") ++ strChars ") + 𝐄 ("
            ++ (d2 ++ strChars "nm") ++ strChars ") → 𝐎 ("
            ++ (dout ++ strChars "nm") ++ strChars ") (Type I)"
            = (strChars "𝐄 (" ++ d1 ++ strChars "nm" ++ strChars ") + 𝐄 ("
              ++ d2 ++ strChars "nm" ++ strChars ") ")
              ++ '→' :: (strChars " 𝐎 (" ++ dout ++ strChars "nm" ++ strChars ") (Type I)") := by
          simp only [e2, List.append_assoc, List.cons_append]
        rw [hm]
        exact delta_n_oe_ok s θ none none none none _ _ _ _ _ d1 d2 dout hd1 hd1d hd2 hd2d
          hdo hdod (by decide) (by decide) (by decide) (by decide) (by decide)
          (Or.inr (by decide))
      rcases List.mem_cons.mp hmode with rfl | hmode
      · have hm : strChars "𝐎 (" ++ (d1 ++ strChars "nm") ++ strChars ") + 𝐄 ("
            ++ (d2 ++ strChars "nm") ++ strChars ") → 𝐄 ("
            ++ (dout ++ strChars "nm") ++ strChars ") (Type II)"
            = (strChars "𝐎 (" ++ d1 ++ strChars "nm" ++ strChars ") + 𝐄 ("
              ++ d2 ++ strChars "nm" ++ strChars ") ")
              ++ '→' :: (strChars " 𝐄 (" ++ dout ++ strChars "nm" ++ strChars ") (Type II)") := by
          simp only [e1, List.append_assoc, List.cons_append]
        rw [hm]
        exact delta_n_oe_ok s θ none none none none _ _ _ _ _ d1 d2 dout hd1 hd1d hd2 hd2d
          hdo hdod (by decide) (by decide) (by decide) (by decide) (by decide)
          (Or.inl (by decide))
      rcases List.mem_cons.mp hmode with rfl | hmode
      · have hm : strChars "𝐎 (" ++ (d2 ++ strChars "nm") ++ strChars ") + 𝐄 ("
            ++ (d1 ++ strChars "nm") ++ strChars ") → 𝐄 ("
            ++ (dout ++ strChars "nm") ++ strChars ") (Type II)"
            = (strChars "𝐎 (" ++ d2 ++ strChars "nm" ++ strChars ") + 𝐄 ("
              ++ d1 ++ strChars "nm" ++ strChars ") ")
              ++ '→' :: (strChars " 𝐄 (" ++ dout ++ strChars "nm" ++ strChars ") (Type II)") := by
          simp only [e1, List.append_assoc, List.cons_append]
        rw [hm]
        exact delta_n_oe_ok s θ none none none none _ _ _ _ _ d2 d1 dout hd2 hd2d hd1 hd1d
          hdo hdod (by decide) (by decide) (by decide) (by decide) (by decide)
          (Or.inl (by decide))
      rcases List.mem_cons.mp hmode with rfl | hmode
      · have hm : strChars "𝐎 (" ++ (d1 ++ strChars "nm") ++ strChars ") + 𝐄 ("
            ++ (d2 ++ strChars "nm") ++ strChars ") → 𝐎 ("
            ++ (dout ++ strChars "nm") ++ strChars ") (Type II)"
            = (strChars "𝐎 (" ++ d1 ++ strChars "nm" ++ strChars ") + 𝐄 ("
              ++ d2 ++ strChars "nm" ++ strChars ") ")
              ++ '→' :: (strChars " 𝐎 (" ++ dout ++ strChars "nm" ++ strChars ") (Type II)") := by
          simp only [e2, List.append_assoc, List.cons_append]
        rw [hm]
        exact delta_n_oe_ok s θ none none none none _ _ _ _ _ d1 d2 dout hd1 hd1d hd2 hd2d
          hdo hdod (by decide) (by decide) (by decide) (by decide) (by decide)
          (Or.inl (by decide))
      rcases List.mem_cons.mp hmode with rfl | hmode
      · have hm : strChars "𝐎 (" ++ (d2 ++ strChars "nm") ++ strChars ") + 𝐄 ("
            ++ (d1 ++ strChars "nm") ++ strChars ") → 𝐎 ("
            ++ (dout ++ strChars "nm") ++ strChars ") (Type II)"
            = (strChars "𝐎 (" ++ d2 ++ strChars "nm" ++ strChars ") + 𝐄 ("
              ++ d1 ++ strChars "nm" ++ strChars ") ")
              ++ '→' :: (strChars " 𝐎 (" ++ dout ++ strChars "nm" ++ strChars ") (Type II)") := by
          simp only [e2, List.append_assoc, List.cons_append]
        rw [hm]
        exact delta_n_oe_ok s θ none none none none _ _ _ _ _ d2 d1 dout hd2 hd2d hd1 hd1d
          hdo hdod (by decide) (by decide) (by decide) (by decide) (by decide)
          (Or.inl (by decide))
      cases hmode

/-- Witness for C1: a converged unit-residual-free root at 0 rad, and the
first SHG mode of a KDP solver at 1064 nm. -/
theorem C1_criticalangle_guard_witness :
    ((criticalangle_entry (fun _ => (0 : ℝ)) 0 1 = some 0 →
      (0 : ℝ) ≤ 0 ∧ (0 : ℝ) ≤ 90 ∧ |(fun _ => (0 : ℝ)) (deg2rad 0)| < 1e-4) ∧
    ((1 : ℤ) ≠ 1 ∨ ¬ ((0 : ℝ) ≤ 0 ∧ (0 : ℝ) ≤ Real.pi / 2) ∨
        ¬ |(fun _ => (0 : ℝ)) 0| < 1e-4 →
      criticalangle_entry (fun _ => (0 : ℝ)) 0 1 = none) ∧
    (∃ v, Solver.delta_n
      ⟨⟨"KDP", "SHG", 1064, 1064, 532, 20, "XZ", fun _ _ => ⟨1, 1, 1⟩⟩,
        AxisKey.n_y, AxisKey.n_z, AxisKey.n_x⟩
      (strChars "𝐎 (" ++ (strChars "1064" ++ strChars "nm") ++ strChars ") + 𝐎 ("
        ++ (strChars "1064" ++ strChars "nm") ++ strChars ") → 𝐄 ("
        ++ (strChars "532" ++ strChars "nm") ++ strChars ") (Type I)")
      (some 0) none none none none = Except.ok v)) :=
  C1_criticalangle_guard (fun _ => (0 : ℝ)) 0 0 1
    ⟨⟨"KDP", "SHG", 1064, 1064, 532, 20, "XZ", fun _ _ => ⟨1, 1, 1⟩⟩,
      AxisKey.n_y, AxisKey.n_z, AxisKey.n_x⟩
    (strChars "𝐎 (" ++ (strChars "1064" ++ strChars "nm") ++ strChars ") + 𝐎 ("
      ++ (strChars "1064" ++ strChars "nm") ++ strChars ") → 𝐄 ("
      ++ (strChars "532" ++ strChars "nm") ++ strChars ") (Type I)")
    (strChars "1064") (strChars "1064") (strChars "532") 0
    (by decide) (by decide) (by decide) (by decide) (by decide) (by decide)
    (by decide)

/-! ## Claim C2: effective-index mixer endpoints and monotonicity -/

/-- The claim asserts `n_e(0) = major` for `ne_func(major, minor)`; at the
concrete pair (2, 3/2) the code gives `n_e(0) = 3/2 = minor`, not 2. -/
theorem C2_mixer_counterexample :
    ne_func 2 (3 / 2) 0 = 3 / 2 ∧ (3 / 2 : ℝ) ≠ 2 := by
  constructor
  · unfold ne_func
    rw [Real.cos_zero, Real.sin_zero]
    rw [show (2 : ℝ) ^ 2 * (3 / 2) ^ 2 / (2 ^ 2 * 1 ^ 2 + (3 / 2) ^ 2 * 0 ^ 2)
      = (3 / 2) ^ 2 by norm_num]
    exact Real.sqrt_sq (by norm_num)
  · norm_num

/-- C2 (amended): for principal indices major, minor > 1, the mixer returned
by `ne_func(major, minor)` satisfies `n_e(0) = minor` and `n_e(π/2) = major`
(the endpoints are the reverse of the claim), and `n_e` is monotonic on
[0, π/2] between those endpoint values. -/
theorem C2_mixer_endpoints_monotone (a b θ1 θ2 : ℝ)
    (ha : 1 < a) (hb : 1 < b) (h0 : 0 ≤ θ1) (h12 : θ1 ≤ θ2)
    (h2 : θ2 ≤ Real.pi / 2) :
    ne_func a b 0 = b ∧ ne_func a b (Real.pi / 2) = a ∧
      (b ≤ a → ne_func a b θ1 ≤ ne_func a b θ2) ∧
      (a ≤ b → ne_func a b θ2 ≤ ne_func a b θ1) := by
  have ha0 : (0 : ℝ) < a := lt_trans one_pos ha
  have hb0 : (0 : ℝ) < b := lt_trans one_pos hb
  have hN : (0 : ℝ) ≤ a ^ 2 * b ^ 2 := by positivity
  -- the denominator is positive at every angle
  have ha2 : (1 : ℝ) ≤ a ^ 2 := by nlinarith
  have hb2 : (1 : ℝ) ≤ b ^ 2 := by nlinarith
  have hden : ∀ θ : ℝ, 0 < a ^ 2 * Real.cos θ ^ 2 + b ^ 2 * Real.sin θ ^ 2 := by
    intro θ
    nlinarith [Real.sin_sq_add_cos_sq θ,
      mul_le_mul_of_nonneg_right ha2 (sq_nonneg (Real.cos θ)),
      mul_le_mul_of_nonneg_right hb2 (sq_nonneg (Real.sin θ))]
  refine ⟨?_, ?_, ?_, ?_⟩
  · unfold ne_func
    rw [Real.cos_zero, Real.sin_zero]
    rw [show a ^ 2 * (1 : ℝ) ^ 2 + b ^ 2 * 0 ^ 2 = a ^ 2 by ring]
    rw [show a ^ 2 * b ^ 2 / a ^ 2 = b ^ 2 by field_simp]
    exact Real.sqrt_sq hb0.le
  · unfold ne_func
    rw [Real.cos_pi_div_two, Real.sin_pi_div_two]
    rw [show a ^ 2 * (0 : ℝ) ^ 2 + b ^ 2 * 1 ^ 2 = b ^ 2 by ring]
    rw [show a ^ 2 * b ^ 2 / b ^ 2 = a ^ 2 by field_simp]
    exact Real.sqrt_sq ha0.le
  · -- case b ≤ a: the denominator is antitone, so n_e is monotone
    intro hab
    unfold ne_func
    apply Real.sqrt_le_sqrt
    have hsin1 : (0 : ℝ) ≤ Real.sin θ1 := by
      apply Real.sin_nonneg_of_nonneg_of_le_pi h0
      linarith [Real.pi_div_two_pos]
    have hsinle : Real.sin θ1 ≤ Real.sin θ2 := by
      apply Real.strictMonoOn_sin.monotoneOn _ _ h12
      · exact ⟨by linarith [Real.pi_div_two_pos], by linarith⟩
      · exact ⟨by linarith [Real.pi_div_two_pos], by linarith⟩
    have hsq : Real.sin θ1 ^ 2 ≤ Real.sin θ2 ^ 2 := by
      nlinarith [hsin1, hsinle]
    have hd : a ^ 2 * Real.cos θ2 ^ 2 + b ^ 2 * Real.sin θ2 ^ 2
        ≤ a ^ 2 * Real.cos θ1 ^ 2 + b ^ 2 * Real.sin θ1 ^ 2 := by
      have hba : b ^ 2 ≤ a ^ 2 := by nlinarith
      nlinarith [Real.sin_sq_add_cos_sq θ1, Real.sin_sq_add_cos_sq θ2,
        mul_nonneg (sub_nonneg.mpr hba) (sub_nonneg.mpr hsq)]
    exact div_le_div_of_nonneg_left hN (hden θ2) hd
  · -- case a ≤ b: the denominator is monotone, so n_e is antitone
    intro hab
    unfold ne_func
    apply Real.sqrt_le_sqrt
    have hsin1 : (0 : ℝ) ≤ Real.sin θ1 := by
      apply Real.sin_nonneg_of_nonneg_of_le_pi h0
      linarith [Real.pi_div_two_pos]
    have hsinle : Real.sin θ1 ≤ Real.sin θ2 := by
      apply Real.strictMonoOn_sin.monotoneOn _ _ h12
      · exact ⟨by linarith [Real.pi_div_two_pos], by linarith⟩
      · exact ⟨by linarith [Real.pi_div_two_pos], by linarith⟩
    have hsq : Real.sin θ1 ^ 2 ≤ Real.sin θ2 ^ 2 := by
      nlinarith [hsin1, hsinle]
    have hd : a ^ 2 * Real.cos θ1 ^ 2 + b ^ 2 * Real.sin θ1 ^ 2
        ≤ a ^ 2 * Real.cos θ2 ^ 2 + b ^ 2 * Real.sin θ2 ^ 2 := by
      have hba : a ^ 2 ≤ b ^ 2 := by nlinarith
      nlinarith [Real.sin_sq_add_cos_sq θ1, Real.sin_sq_add_cos_sq θ2,
        mul_nonneg (sub_nonneg.mpr hba) (sub_nonneg.mpr hsq)]
    exact div_le_div_of_nonneg_left hN (hden θ1) hd

/-- Witness: `C2_mixer_endpoints_monotone` at (a, b, θ1, θ2) = (2, 3/2, 0, π/2). -/
theorem C2_mixer_endpoints_monotone_witness :
    ne_func 2 (3 / 2) 0 = 3 / 2 ∧ ne_func 2 (3 / 2) (Real.pi / 2) = 2 ∧
      ((3 / 2 : ℝ) ≤ 2 → ne_func 2 (3 / 2) 0 ≤ ne_func 2 (3 / 2) (Real.pi / 2)) ∧
      ((2 : ℝ) ≤ 3 / 2 → ne_func 2 (3 / 2) (Real.pi / 2) ≤ ne_func 2 (3 / 2) 0) :=
  C2_mixer_endpoints_monotone 2 (3 / 2) 0 (Real.pi / 2) (by norm_num) (by norm_num)
    le_rfl (le_of_lt Real.pi_div_two_pos) le_rfl

/-! ## Claim C3: the phase-mismatch weights -/

/-- The claim asserts the SFG weights are `λ_out/λ1`, `λ_out/λ2` for the
wavelengths in effect, for every mode including XYZ-notation ones. On an
XYZ mode of an SFG solver (1064 + 532 → 1064/3 nm, index model returning
the wavelength itself) evaluated with the override `wavelength1 = 1000`,
the code uses the preset weights 1/3 and 2/3 and returns 1000/3, while the
claimed weighting `λ_out/λ_eff` would give 1064/3. -/
theorem C3_weights_counterexample :
    Solver.delta_n
      ⟨⟨"LBO", "SFG", 1064, 532, 1064 / 3, 20, "XZ", fun wl _ => ⟨wl, wl, wl⟩⟩,
        AxisKey.n_y, AxisKey.n_z, AxisKey.n_x⟩
      (strChars "𝐗 (1064nm) + 𝐗 (532nm) → 𝐘 (355nm) (Type I)")
      none (some 1000) none none none = Except.ok (1000 / 3) ∧
    (1000 / 3 : ℝ) ≠
      ((1064 / 3) / 1000) * 1000 + ((1064 / 3) / 532) * 532 - 1064 / 3 := by
  constructor
  · unfold Solver.delta_n
    rw [show splitOnChar '→' (strChars "𝐗 (1064nm) + 𝐗 (532nm) → 𝐘 (355nm) (Type I)")
      = [strChars "𝐗 (1064nm) + 𝐗 (532nm) ", strChars " 𝐘 (355nm) (Type I)"] from rfl]
    rw [show is_xyz_form (strChars "𝐗 (1064nm) + 𝐗 (532nm) → 𝐘 (355nm) (Type I)")
      = true from rfl]
    simp only [List.length_cons, List.length_nil, List.headD_cons, List.drop_succ_cons,
      List.drop_zero, if_true]
    rw [show stripChars (strChars "𝐗 (1064nm) + 𝐗 (532nm) ")
      = strChars "𝐗 (1064nm) + 𝐗 (532nm)" from rfl]
    rw [show splitOnChar '+' (strChars "𝐗 (1064nm) + 𝐗 (532nm)")
      = [strChars "𝐗 (1064nm) ", strChars " 𝐗 (532nm)"] from rfl]
    rw [show stripChars (strChars " 𝐘 (355nm) (Type I)")
      = strChars "𝐘 (355nm) (Type I)" from rfl]
    norm_num [show extract_xyz_pol (strChars "𝐗 (1064nm) ") = some '𝐗' from rfl,
      show extract_xyz_pol (strChars " 𝐗 (532nm)") = some '𝐗' from rfl,
      show extract_xyz_pol (strChars "𝐘 (355nm) (Type I)") = some '𝐘' from rfl,
      show xyz_to_key (some '𝐗') = some AxisKey.n_x from rfl,
      show xyz_to_key (some '𝐘') = some AxisKey.n_y from rfl,
      show ¬ ("SFG" : String) = "SHG" from by decide,
      Solver.weight1, Solver.weight2, Indices.get]
  · norm_num

/-- C3 (amended): for every OE-notation (angle-tunable) evaluation the two
input contributions are weighted 0.5/0.5 under SHG and `λ_out/λ_beam` under
SFG, with the beam wavelengths drawn from the wavelengths actually in
effect (the overrides when present) — the two beams bound to
(λ1, λ2) in one of the two orders — so that each SFG weight times its own
beam's wavelength equals λ_out; an XYZ-notation (axis-locked) evaluation
instead uses the preset weights `Solver.weight1`/`Solver.weight2` computed
from the fixed Configuration defaults. -/
theorem C3_weights_amended (s : Solver) (mode A B : List Char) (pol1 : Char)
    (rest : List Char) (theta : ℝ) (w1 w2 wo t : Option ℝ)
    (hsplit : splitOnChar '→' mode = [A, B])
    (hpols : input_pols (stripChars A) = pol1 :: rest)
    (hb1 : w1.getD s.cfg.wavelength1_nm ≠ 0)
    (hb2 : w2.getD s.cfg.wavelength2_nm ≠ 0) :
    (is_xyz_form mode = false → 3 ≤ (findall_nm mode).length →
      ∃ b1 b2,
        ((b1 = w1.getD s.cfg.wavelength1_nm ∧ b2 = w2.getD s.cfg.wavelength2_nm) ∨
         (b1 = w2.getD s.cfg.wavelength2_nm ∧ b2 = w1.getD s.cfg.wavelength1_nm)) ∧
        s.delta_n mode (some theta) w1 w2 wo t = Except.ok
          (delta_n_oe_spec s b1 b2 (wo.getD s.cfg.wavelength_out_nm)
            (t.getD s.cfg.temperature) pol1 (rest.headD pol1)
            (output_pol (stripChars B)) theta) ∧
        (¬ s.cfg.process_type = "SHG" →
          wo.getD s.cfg.wavelength_out_nm / b1 * b1 = wo.getD s.cfg.wavelength_out_nm ∧
          wo.getD s.cfg.wavelength_out_nm / b2 * b2 = wo.getD s.cfg.wavelength_out_nm)) ∧
    (is_xyz_form mode = true →
      ∀ k1 k2 ko,
        xyz_to_key (extract_xyz_pol ((splitOnChar '+' (stripChars A)).headD [])) = some k1 →
        xyz_to_key (if 1 < (splitOnChar '+' (stripChars A)).length then
          extract_xyz_pol (((splitOnChar '+' (stripChars A)).drop 1).headD []) else
          extract_xyz_pol ((splitOnChar '+' (stripChars A)).headD [])) = some k2 →
        xyz_to_key (extract_xyz_pol (stripChars B)) = some ko →
        s.delta_n mode (some theta) w1 w2 wo t = Except.ok
          (s.weight1 * (s.cfg.indexModel (w1.getD s.cfg.wavelength1_nm)
              (t.getD s.cfg.temperature)).get k1
            + s.weight2 * (s.cfg.indexModel (w2.getD s.cfg.wavelength2_nm)
              (t.getD s.cfg.temperature)).get k2
            - (s.cfg.indexModel (wo.getD s.cfg.wavelength_out_nm)
              (t.getD s.cfg.temperature)).get ko)) := by
  constructor
  · intro hxyz hlen
    by_cases hstraight : |(natOfDigits ((findall_nm mode).headD []) : ℝ)
        - w1.getD s.cfg.wavelength1_nm| < 1
    · refine ⟨w1.getD s.cfg.wavelength1_nm, w2.getD s.cfg.wavelength2_nm,
        Or.inl ⟨rfl, rfl⟩, ?_, ?_⟩
      · unfold Solver.delta_n
        rw [hsplit]
        simp only [List.length_cons, List.length_nil, List.headD_cons,
          List.drop_succ_cons, List.drop_zero, hxyz, Bool.false_eq_true, if_false,
          if_neg (by omega : ¬ (findall_nm mode).length < 3), hpols]
        rw [if_neg (by simp), if_pos hstraight, if_pos hstraight, if_pos hstraight,
          if_pos hstraight]
        rfl
      · intro hshg
        exact ⟨div_mul_cancel₀ _ hb1, div_mul_cancel₀ _ hb2⟩
    · refine ⟨w2.getD s.cfg.wavelength2_nm, w1.getD s.cfg.wavelength1_nm,
        Or.inr ⟨rfl, rfl⟩, ?_, ?_⟩
      · unfold Solver.delta_n
        rw [hsplit]
        simp only [List.length_cons, List.length_nil, List.headD_cons,
          List.drop_succ_cons, List.drop_zero, hxyz, Bool.false_eq_true, if_false,
          if_neg (by omega : ¬ (findall_nm mode).length < 3), hpols]
        rw [if_neg (by simp), if_neg hstraight, if_neg hstraight, if_neg hstraight,
          if_neg hstraight]
        rfl
      · intro hshg
        exact ⟨div_mul_cancel₀ _ hb2, div_mul_cancel₀ _ hb1⟩
  · intro hxyz k1 k2 ko h1 h2 h3
    unfold Solver.delta_n
    rw [hsplit]
    simp only [List.length_cons, List.length_nil, List.headD_cons,
      List.drop_succ_cons, List.drop_zero, hxyz, if_true]
    rw [h1, h2, h3]
    rfl

/-- Witness for C3: the SFG sample solver on the OE mode
`𝐎 (1064nm) + 𝐄 (532nm) → 𝐄 (355nm) (Type II)` with the override
`wavelength1 = 1000`. -/
theorem C3_weights_amended_witness :
    (is_xyz_form (strChars "𝐎 (1064nm) + 𝐄 (532nm) → 𝐄 (355nm) (Type II)") = false →
      3 ≤ (findall_nm (strChars "𝐎 (1064nm) + 𝐄 (532nm) → 𝐄 (355nm) (Type II)")).length →
      ∃ b1 b2,
        ((b1 = (1000 : ℝ) ∧ b2 = (532 : ℝ)) ∨ (b1 = (532 : ℝ) ∧ b2 = (1000 : ℝ))) ∧
        Solver.delta_n sample_sfg_solver
          (strChars "𝐎 (1064nm) + 𝐄 (532nm) → 𝐄 (355nm) (Type II)")
          (some 0) (some 1000) none none none = Except.ok
          (delta_n_oe_spec sample_sfg_solver b1 b2 (1064 / 3) 20 '𝐎' '𝐄' '𝐄' 0) ∧
        (¬ ("SFG" : String) = "SHG" →
          (1064 / 3 : ℝ) / b1 * b1 = 1064 / 3 ∧ (1064 / 3 : ℝ) / b2 * b2 = 1064 / 3)) ∧
    (is_xyz_form (strChars "𝐎 (1064nm) + 𝐄 (532nm) → 𝐄 (355nm) (Type II)") = true →
      ∀ k1 k2 ko : AxisKey,
        (none : Option AxisKey) = some k1 →
        (none : Option AxisKey) = some k2 →
        (none : Option AxisKey) = some ko →
        Solver.delta_n sample_sfg_solver
          (strChars "𝐎 (1064nm) + 𝐄 (532nm) → 𝐄 (355nm) (Type II)")
          (some 0) (some 1000) none none none = Except.ok
          (1064 / 3 / 1064 * (Indices.get ⟨1000, 1000, 1000⟩ k1)
            + 1064 / 3 / 532 * (Indices.get ⟨532, 532, 532⟩ k2)
            - Indices.get ⟨1064 / 3, 1064 / 3, 1064 / 3⟩ ko)) :=
  C3_weights_amended sample_sfg_solver
    (strChars "𝐎 (1064nm) + 𝐄 (532nm) → 𝐄 (355nm) (Type II)")
    (strChars "𝐎 (1064nm) + 𝐄 (532nm) ") (strChars " 𝐄 (355nm) (Type II)")
    '𝐎' ['𝐄'] 0 (some 1000) none none none rfl rfl
    (by norm_num [sample_sfg_solver]) (by norm_num [sample_sfg_solver])

/-! ## Claim C4: when `delta_n` raises -/

/-- The claim asserts `delta_n` raises only for a missing arrow, an
OE-notation identifier without three wavelengths, or a missing `theta` for
an angle-tunable mode with an extraordinary beam — and that an XYZ-notation
mode with `theta` absent is not an error. The identifier
`𝐎 (1064nm) + 𝐎 (1064nm) → 𝐗 (532nm) (Type I)` has exactly one arrow, is
XYZ-notation (so none of the claimed raise cases applies, and `theta` is
not required), yet the code raises a `KeyError` because the input beams
carry no axis letter. -/
theorem C4_error_cases_counterexample :
    (∃ e, Solver.delta_n sample_shg_solver
      (strChars "𝐎 (1064nm) + 𝐎 (1064nm) → 𝐗 (532nm) (Type I)")
      none none none none none = Except.error e) ∧
    is_xyz_form (strChars "𝐎 (1064nm) + 𝐎 (1064nm) → 𝐗 (532nm) (Type I)") = true ∧
    (splitOnChar '→' (strChars "𝐎 (1064nm) + 𝐎 (1064nm) → 𝐗 (532nm) (Type I)")).length = 2 :=
  ⟨⟨"KeyError", rfl⟩, rfl, rfl⟩

/-- C4 (amended): `delta_n` raises exactly when the identifier does not
split at the arrow into exactly two parts; or it is XYZ-notation and one of
its three beam segments carries no axis letter; or it is OE-notation and
has fewer than three extractable wavelengths, or no polarization letter in
its input part, or `theta` is absent while some beam is labelled
extraordinary. For an XYZ-notation mode an absent `theta` alone is never an
error. -/
theorem C4_error_cases (s : Solver) (mode : List Char) (theta w1 w2 wo t : Option ℝ) :
    (∃ e, s.delta_n mode theta w1 w2 wo t = Except.error e) ↔
      delta_n_raises mode theta := by
  simp only [Solver.delta_n, delta_n_raises]
  by_cases hlen : (splitOnChar '→' mode).length ≠ 2
  · simp [hlen]
  · rw [if_neg hlen]
    simp only [hlen, false_or]
    by_cases hxyz : is_xyz_form mode = true
    · rw [if_pos hxyz]
      simp only [hxyz, true_and, Bool.true_eq_false, false_and, or_false]
      cases hk1 : xyz_to_key (extract_xyz_pol
          ((splitOnChar '+' (stripChars ((splitOnChar '→' mode).headD []))).headD [])) with
      | none => simp [hk1]
      | some k1 =>
        cases hk2 : xyz_to_key (if 1 < (splitOnChar '+' (stripChars ((splitOnChar '→' mode).headD []))).length
            then extract_xyz_pol (((splitOnChar '+' (stripChars ((splitOnChar '→' mode).headD []))).drop 1).headD [])
            else extract_xyz_pol ((splitOnChar '+' (stripChars ((splitOnChar '→' mode).headD []))).headD [])) with
        | none => simp [hk1, hk2]
        | some k2 =>
          cases hk3 : xyz_to_key (extract_xyz_pol
              (stripChars (((splitOnChar '→' mode).drop 1).headD []))) with
          | none => simp [hk1, hk2, hk3]
          | some k3 => simp [hk1, hk2, hk3]
    · rw [if_neg hxyz]
      have hxyz2 : is_xyz_form mode = false := by
        revert hxyz
        cases is_xyz_form mode <;> simp
      simp only [hxyz2, Bool.false_eq_true, false_and, false_or, true_and]
      by_cases hfew : (findall_nm mode).length < 3
      · rw [if_pos hfew]
        simp [hfew]
      · rw [if_neg hfew]
        cases hip : input_pols (stripChars ((splitOnChar '→' mode).headD [])) with
        | nil => simp [hip, hfew]
        | cons p1 rest =>
          simp only [hip]
          by_cases hth : theta = none ∧ (p1 = '𝐄' ∨ rest.headD p1 = '𝐄' ∨
              output_pol (stripChars (((splitOnChar '→' mode).drop 1).headD [])) = '𝐄')
          · rw [if_pos hth]
            obtain ⟨hthn, hthE⟩ := hth
            simp [hip, hfew, hthn]
            simpa using hthE
          · rw [if_neg hth]
            simp [hip, hfew]
            intro hthn
            have hno : ¬ (p1 = '𝐄' ∨ rest.headD p1 = '𝐄' ∨
                output_pol (stripChars (((splitOnChar '→' mode).drop 1).headD [])) = '𝐄') :=
              fun hE => hth ⟨hthn, hE⟩
            push_neg at hno
            simpa using hno

/-! ## Claim C5: the walk-off calculator -/

/-- C5 (amended): a NaN critical angle propagates to a NaN walk-off entry;
for a defined angle, each ordinary-labelled beam reports exactly (0, 0) and
each extraordinary-labelled beam reports `ρ = θ − atan((a²/b²)·tanθ)`
(degrees and milliradians) with `(a, b)` the plane-selected principal index
pair at the wavelength assigned by listing position — the first input beam
always at `cfg.wavelength1_nm`, the second at `cfg.wavelength2_nm` for SFG
and at `cfg.wavelength1_nm` otherwise, the output at
`cfg.wavelength_out_nm` — with no re-binding of the identifier's wavelength
labels to beams, so on a swapped SFG mode the extraordinary input beam uses
the other input's wavelength rather than its own. -/
theorem C5_walkoff (cfg : SimulationConfig) (mode A B : List Char) (pol1 : Char)
    (rest : List Char) (θdeg : ℝ)
    (hsplit : splitOnChar '→' mode = [A, B])
    (hpols : input_pols (stripChars A) = pol1 :: rest) :
    walkoff_angle_entry cfg mode none = none ∧
    ∃ r1 r2 r3,
      walkoff_angle_entry cfg mode (some θdeg) =
        some (Except.ok ((pol1, r1), (rest.headD pol1, r2),
          (output_pol (stripChars B), r3))) ∧
      (pol1 = '𝐎' → r1 = (0, 0)) ∧
      (¬ pol1 = '𝐎' → r1 = walkoff_spec cfg (deg2rad θdeg) cfg.wavelength1_nm) ∧
      (rest.headD pol1 = '𝐎' → r2 = (0, 0)) ∧
      (¬ rest.headD pol1 = '𝐎' → r2 = walkoff_spec cfg (deg2rad θdeg)
        (if cfg.process_type = "SFG" then cfg.wavelength2_nm else cfg.wavelength1_nm)) ∧
      (output_pol (stripChars B) = '𝐎' → r3 = (0, 0)) ∧
      (¬ output_pol (stripChars B) = '𝐎' → r3 = walkoff_spec cfg (deg2rad θdeg)
        cfg.wavelength_out_nm) := by
  have hcw : ∀ pol wl, calc_walkoff cfg (deg2rad θdeg) pol wl =
      if pol = '𝐎' then ((0 : ℝ), (0 : ℝ)) else walkoff_spec cfg (deg2rad θdeg) wl := by
    intro pol wl
    by_cases hpol : pol = '𝐎'
    · rw [if_pos hpol]
      unfold calc_walkoff
      rw [if_pos hpol]
      norm_num
    · rw [if_neg hpol]
      unfold calc_walkoff walkoff_spec
      rw [if_neg hpol]
      by_cases h1 : cfg.plane = "XY"
      · simp only [if_pos h1]
        rfl
      · by_cases h2 : cfg.plane = "XZ"
        · simp only [if_neg h1, if_pos h2]
          rfl
        · simp only [if_neg h1, if_neg h2]
          rfl
  constructor
  · rfl
  · refine ⟨calc_walkoff cfg (deg2rad θdeg) pol1 cfg.wavelength1_nm,
      calc_walkoff cfg (deg2rad θdeg) (rest.headD pol1)
        (if cfg.process_type = "SFG" then cfg.wavelength2_nm else cfg.wavelength1_nm),
      calc_walkoff cfg (deg2rad θdeg) (output_pol (stripChars B)) cfg.wavelength_out_nm,
      ?_, ?_, ?_, ?_, ?_, ?_, ?_⟩
    · unfold walkoff_angle_entry
      rw [hsplit]
      simp only [List.length_cons, List.length_nil, List.headD_cons, List.drop_succ_cons,
        List.drop_zero, hpols]
      rfl
    · intro h
      rw [hcw, if_pos h]
    · intro h
      rw [hcw, if_neg h]
    · intro h
      rw [hcw, if_pos h]
    · intro h
      rw [hcw, if_neg h]
    · intro h
      rw [hcw, if_pos h]
    · intro h
      rw [hcw, if_neg h]

/-- Witness for C5: the SFG sample configuration on the mode
`𝐎 (1064nm) + 𝐄 (532nm) → 𝐄 (355nm) (Type II)` at 45°. -/
theorem C5_walkoff_witness :
    walkoff_angle_entry sample_sfg_solver.cfg
      (strChars "𝐎 (1064nm) + 𝐄 (532nm) → 𝐄 (355nm) (Type II)") none = none ∧
    ∃ r1 r2 r3,
      walkoff_angle_entry sample_sfg_solver.cfg
        (strChars "𝐎 (1064nm) + 𝐄 (532nm) → 𝐄 (355nm) (Type II)") (some 45) =
        some (Except.ok (('𝐎', r1), ('𝐄', r2), ('𝐄', r3))) ∧
      (('𝐎' : Char) = '𝐎' → r1 = (0, 0)) ∧
      (¬ ('𝐎' : Char) = '𝐎' → r1 = walkoff_spec sample_sfg_solver.cfg (deg2rad 45) 1064) ∧
      (('𝐄' : Char) = '𝐎' → r2 = (0, 0)) ∧
      (¬ ('𝐄' : Char) = '𝐎' → r2 = walkoff_spec sample_sfg_solver.cfg (deg2rad 45)
        (if ("SFG" : String) = "SFG" then (532 : ℝ) else 1064)) ∧
      (('𝐄' : Char) = '𝐎' → r3 = (0, 0)) ∧
      (¬ ('𝐄' : Char) = '𝐎' → r3 = walkoff_spec sample_sfg_solver.cfg (deg2rad 45)
        (1064 / 3)) :=
  C5_walkoff sample_sfg_solver.cfg
    (strChars "𝐎 (1064nm) + 𝐄 (532nm) → 𝐄 (355nm) (Type II)")
    (strChars "𝐎 (1064nm) + 𝐄 (532nm) ") (strChars " 𝐄 (355nm) (Type II)")
    '𝐎' ['𝐄'] 45 rfl rfl

/-- Counterexample to C5 as originally claimed: `walkoff_angle` hands
`cfg.wavelength1_nm` to the first-listed input beam and `cfg.wavelength2_nm`
to the second with no re-binding, so on the swapped SFG mode
`𝐎 (532nm) + 𝐄 (1064nm) → …` the extraordinary input beam — labelled
1064 nm in the identifier — has its walk-off computed with the indices at
532 nm; under a wavelength-dependent index model that value differs from
the walk-off at the beam's own wavelength 1064 nm. -/
theorem C5_walkoff_counterexample :
    (∃ r3,
      walkoff_angle_entry sample_swapped_cfg
        (strChars "𝐎 (532nm) + 𝐄 (1064nm) → 𝐄 (355nm) (Type II)") (some 45) =
        some (Except.ok (('𝐎', (0 : ℝ), (0 : ℝ)),
          ('𝐄', walkoff_spec sample_swapped_cfg (deg2rad 45) 532), ('𝐄', r3)))) ∧
    walkoff_spec sample_swapped_cfg (deg2rad 45) 532
      ≠ walkoff_spec sample_swapped_cfg (deg2rad 45) 1064 := by
  constructor
  · refine ⟨calc_walkoff sample_swapped_cfg (deg2rad 45) '𝐄' (1064 / 3), ?_⟩
    have hsplit : splitOnChar '→'
        (strChars "𝐎 (532nm) + 𝐄 (1064nm) → 𝐄 (355nm) (Type II)")
        = [strChars "𝐎 (532nm) + 𝐄 (1064nm) ", strChars " 𝐄 (355nm) (Type II)"] := rfl
    have hpols : input_pols (stripChars (strChars "𝐎 (532nm) + 𝐄 (1064nm) "))
        = ['𝐎', '𝐄'] := rfl
    have hO : calc_walkoff sample_swapped_cfg (deg2rad 45) '𝐎' 1064 = ((0 : ℝ), (0 : ℝ)) := by
      unfold calc_walkoff
      rw [if_pos rfl]
      norm_num
    have hE : calc_walkoff sample_swapped_cfg (deg2rad 45) '𝐄' 532
        = walkoff_spec sample_swapped_cfg (deg2rad 45) 532 := by
      unfold calc_walkoff walkoff_spec
      rw [if_neg (by decide : ¬ ('𝐄' : Char) = '𝐎')]
      rfl
    have hentry : walkoff_angle_entry sample_swapped_cfg
        (strChars "𝐎 (532nm) + 𝐄 (1064nm) → 𝐄 (355nm) (Type II)") (some 45) =
        some (Except.ok (('𝐎', calc_walkoff sample_swapped_cfg (deg2rad 45) '𝐎' 1064),
          ('𝐄', calc_walkoff sample_swapped_cfg (deg2rad 45) '𝐄' 532),
          ('𝐄', calc_walkoff sample_swapped_cfg (deg2rad 45) '𝐄' (1064 / 3)))) := by
      unfold walkoff_angle_entry
      rw [hsplit]
      simp only [List.length_cons, List.length_nil, List.headD_cons, List.drop_succ_cons,
        List.drop_zero, hpols]
      rfl
    rw [hentry, hO, hE]
  · intro heq
    have h45 : deg2rad 45 = Real.pi / 4 := by
      unfold deg2rad
      ring
    rw [h45] at heq
    have e532 : walkoff_spec sample_swapped_cfg (Real.pi / 4) 532
        = (rad2deg (Real.pi / 4
            - Real.arctan ((532 / 532 : ℝ) ^ 2 / (1 : ℝ) ^ 2 * Real.tan (Real.pi / 4))),
          (Real.pi / 4
            - Real.arctan ((532 / 532 : ℝ) ^ 2 / (1 : ℝ) ^ 2 * Real.tan (Real.pi / 4))) * 1e3) :=
      rfl
    have e1064 : walkoff_spec sample_swapped_cfg (Real.pi / 4) 1064
        = (rad2deg (Real.pi / 4
            - Real.arctan ((1064 / 532 : ℝ) ^ 2 / (1 : ℝ) ^ 2 * Real.tan (Real.pi / 4))),
          (Real.pi / 4
            - Real.arctan ((1064 / 532 : ℝ) ^ 2 / (1 : ℝ) ^ 2 * Real.tan (Real.pi / 4))) * 1e3) :=
      rfl
    rw [e532, e1064] at heq
    have harg1 : (532 / 532 : ℝ) ^ 2 / (1 : ℝ) ^ 2 * Real.tan (Real.pi / 4) = 1 := by
      rw [Real.tan_pi_div_four]
      norm_num
    have harg2 : (1064 / 532 : ℝ) ^ 2 / (1 : ℝ) ^ 2 * Real.tan (Real.pi / 4) = 4 := by
      rw [Real.tan_pi_div_four]
      norm_num
    rw [harg1, harg2, Real.arctan_one] at heq
    have hsnd := congrArg Prod.snd heq
    simp only at hsnd
    norm_num at hsnd
    have hz : Real.arctan 4 = Real.pi / 4 := by linarith
    have ht := Real.tan_arctan (4 : ℝ)
    rw [hz, Real.tan_pi_div_four] at ht
    norm_num at ht

/-! ## Claim C6: the effective-nonlinearity calculator -/

/-- C6: for every mode the d_eff entry is a non-negative scalar (the
absolute value of the point-group contraction), and it is exactly 0 — not
an error — when the identifier has no matching type, when the symmetry
class is none of 4bar2m/3m/mm2, when the plane is not one of the three
coordinate planes, and for the symmetry-forbidden mm2 type/plane
combinations (Type II in the XY plane, EEO in the YZ or XZ plane). -/
theorem C6_d_eff_nonneg_zero (cfg : SimulationConfig) (crystal_info : CrystalInfo)
    (mode : List Char) (critical_angle_deg : ℝ) (selected_phi : Option ℝ) :
    0 ≤ d_eff_entry cfg crystal_info mode critical_angle_deg selected_phi ∧
    (get_mode_type mode = none →
      d_eff_entry cfg crystal_info mode critical_angle_deg selected_phi = 0) ∧
    (¬ (crystal_info.group = "4bar2m" ∨ crystal_info.group = "3m" ∨
        crystal_info.group = "mm2") →
      d_eff_entry cfg crystal_info mode critical_angle_deg selected_phi = 0) ∧
    (¬ (cfg.plane = "XY" ∨ cfg.plane = "XZ" ∨ cfg.plane = "YZ") →
      d_eff_entry cfg crystal_info mode critical_angle_deg selected_phi = 0) ∧
    (crystal_info.group = "mm2" → cfg.plane = "XY" →
      (get_mode_type mode = some (strChars "OEE") ∨
       get_mode_type mode = some (strChars "OEO")) →
      d_eff_entry cfg crystal_info mode critical_angle_deg selected_phi = 0) ∧
    (crystal_info.group = "mm2" → cfg.plane = "YZ" ∨ cfg.plane = "XZ" →
      get_mode_type mode = some (strChars "EEO") →
      d_eff_entry cfg crystal_info mode critical_angle_deg selected_phi = 0) := by
  have d_contract_unsupported : ∀ (group plane : String) (d : List (String × ℝ))
      (mt : List Char) (θ φ : ℝ),
      ¬ (group = "4bar2m" ∨ group = "3m" ∨ group = "mm2") →
      d_contract group plane d mt θ φ = 0 := by
    intro group plane d mt θ φ hg
    push_neg at hg
    unfold d_contract
    rw [if_neg hg.1, if_neg hg.2.1, if_neg hg.2.2]
    norm_num
  have d_contract_mm2_xy : ∀ (d : List (String × ℝ)) (mt : List Char) (θ φ : ℝ),
      (mt = strChars "OEE" ∨ mt = strChars "OEO") →
      d_contract "mm2" "XY" d mt θ φ = 0 := by
    intro d mt θ φ hmt
    unfold d_contract
    rcases hmt with rfl | rfl <;>
      rw [if_neg (by decide), if_neg (by decide), if_pos rfl, if_pos rfl,
        if_neg (by decide), if_neg (by decide)] <;> norm_num
  have d_contract_mm2_yz : ∀ (d : List (String × ℝ)) (θ φ : ℝ),
      d_contract "mm2" "YZ" d (strChars "EEO") θ φ = 0 := by
    intro d θ φ
    unfold d_contract
    rw [if_neg (by decide), if_neg (by decide), if_pos rfl, if_neg (by decide),
      if_pos rfl, if_neg (by decide), if_neg (by decide)]
    norm_num
  have d_contract_mm2_xz : ∀ (d : List (String × ℝ)) (θ φ : ℝ),
      d_contract "mm2" "XZ" d (strChars "EEO") θ φ = 0 := by
    intro d θ φ
    unfold d_contract
    rw [if_neg (by decide), if_neg (by decide), if_pos rfl, if_neg (by decide),
      if_neg (by decide), if_neg (by decide), if_neg (by decide)]
    norm_num
  cases hmt : get_mode_type mode with
  | none => norm_num [d_eff_entry, hmt]
  | some mt =>
    simp only [d_eff_entry, hmt]
    by_cases hpl : cfg.plane = "XY" ∨ cfg.plane = "XZ" ∨ cfg.plane = "YZ"
    · rw [if_pos hpl]
      refine ⟨abs_nonneg _, by simp, ?_, fun h => absurd hpl h, ?_, ?_⟩
      · intro hg
        rw [d_contract_unsupported _ _ _ _ _ _ hg, abs_zero]
      · intro hg hxy hmm
        simp only [Option.some.injEq] at hmm
        rw [hg, hxy, d_contract_mm2_xy _ _ _ _ hmm, abs_zero]
      · intro hg hyzxz hmm
        simp only [Option.some.injEq] at hmm
        subst hmm
        rcases hyzxz with h | h
        · rw [hg, h, d_contract_mm2_yz, abs_zero]
        · rw [hg, h, d_contract_mm2_xz, abs_zero]
    · rw [if_neg hpl]
      norm_num [hpl]

/-! ## Claim C7: the conversion-efficiency curve -/

theorem range_map_getD (n k : ℕ) (f : ℕ → ℝ) (h : k < n) :
    ((List.range n).map f).getD k 0 = f k := by
  rw [List.getD_eq_getElem?_getD, List.getElem?_map, List.getElem?_range h]
  rfl

theorem np_sinc_sq_le_one (x : ℝ) : np_sinc x ^ 2 ≤ 1 := by
  unfold np_sinc
  by_cases hx : x = 0
  · rw [if_pos hx]
    norm_num
  · rw [if_neg hx]
    have ht : Real.pi * x ≠ 0 := mul_ne_zero Real.pi_ne_zero hx
    rw [div_pow, div_le_one (by positivity)]
    exact Real.sin_sq_le_sq

/-- C7: every sample of the acceptance-angle efficiency curve is ≤ 1, and
the nominal (zero-deviation) sample — index `step`, where the scan angle
equals the solved critical angle and every other variable holds its
configured value — has efficiency exactly 1 whenever the solved angle
satisfies the matching condition `Δn = 0` there. -/
theorem C7_efficiency_peak (s : Solver) (mode : List Char) (θc : ℝ) (step : ℕ)
    (res : ℝ) (k : ℕ) (vk : ℝ)
    (hvk : acceptance_angle_efficiency s mode θc step res k = Except.ok vk)
    (h0 : s.delta_n mode (some (deg2rad θc)) none none none none = Except.ok 0)
    (hstep : 0 < step) :
    vk ≤ 1 ∧ acceptance_angle_efficiency s mode θc step res step = Except.ok 1 := by
  constructor
  · unfold acceptance_angle_efficiency at hvk
    cases hdn : s.delta_n mode
        (some ((acceptance_angle_axis θc step res).getD k 0)) none none none none with
    | error e =>
      rw [hdn] at hvk
      cases hvk
    | ok dn =>
      rw [hdn] at hvk
      obtain rfl : conversion_efficiency s.cfg.wavelength_out_um dn = vk :=
        Except.ok.inj hvk
      exact np_sinc_sq_le_one _
  · have haxis : (acceptance_angle_axis θc step res).getD step 0 = deg2rad θc := by
      unfold acceptance_angle_axis
      rw [range_map_getD _ _ _ (by omega : step < 2 * step)]
      ring
    unfold acceptance_angle_efficiency
    rw [haxis, h0]
    show Except.ok (conversion_efficiency s.cfg.wavelength_out_um 0) = Except.ok 1
    unfold conversion_efficiency np_sinc
    norm_num

/-- `findall_nm` on the all-ordinary SHG sample mode name. -/
theorem findall_nm_sample :
    findall_nm (strChars "𝐎 (1064nm) + 𝐎 (1064nm) → 𝐎 (532nm) (Type I)")
      = [strChars "1064", strChars "1064", strChars "532"] := by
  have h : strChars "𝐎 (1064nm) + 𝐎 (1064nm) → 𝐎 (532nm) (Type I)"
      = strChars "𝐎 (" ++ (strChars "1064" ++ 'n' :: 'm' :: (strChars ") + 𝐎 ("
        ++ (strChars "1064" ++ 'n' :: 'm' :: (strChars ") → 𝐎 ("
        ++ (strChars "532" ++ 'n' :: 'm' :: strChars ") (Type I)"))))) := rfl
  rw [h, findall_nm_append_no_digit _ _ (by decide),
    findall_nm_digits _ _ (by decide) (by decide),
    findall_nm_append_no_digit _ _ (by decide),
    findall_nm_digits _ _ (by decide) (by decide),
    findall_nm_append_no_digit _ _ (by decide),
    findall_nm_digits _ _ (by decide) (by decide),
    findall_nm_nil_of_no_digit _ (by decide)]

/-- The sample SHG solver has `Δn = 0` at every angle on the all-ordinary
mode (its constant index model gives 0.5·1 + 0.5·1 − 1 = 0). -/
theorem sample_delta_n_zero (θ : ℝ) :
    Solver.delta_n sample_shg_solver
      (strChars "𝐎 (1064nm) + 𝐎 (1064nm) → 𝐎 (532nm) (Type I)")
      (some θ) none none none none = Except.ok 0 := by
  unfold Solver.delta_n
  rw [show splitOnChar '→' (strChars "𝐎 (1064nm) + 𝐎 (1064nm) → 𝐎 (532nm) (Type I)")
      = [strChars "𝐎 (1064nm) + 𝐎 (1064nm) ", strChars " 𝐎 (532nm) (Type I)"] from rfl]
  rw [show is_xyz_form (strChars "𝐎 (1064nm) + 𝐎 (1064nm) → 𝐎 (532nm) (Type I)")
      = false from rfl]
  simp only [List.length_cons, List.length_nil, List.headD_cons, List.drop_succ_cons,
    List.drop_zero, Bool.false_eq_true, if_false]
  rw [findall_nm_sample]
  norm_num [show stripChars (strChars "𝐎 (1064nm) + 𝐎 (1064nm) ")
      = strChars "𝐎 (1064nm) + 𝐎 (1064nm)" from rfl,
    show input_pols (strChars "𝐎 (1064nm) + 𝐎 (1064nm)") = ['𝐎'] from rfl,
    show stripChars (strChars " 𝐎 (532nm) (Type I)")
      = strChars "𝐎 (532nm) (Type I)" from rfl,
    show output_pol (strChars "𝐎 (532nm) (Type I)") = '𝐎' from rfl,
    show natOfDigits (strChars "1064") = 1064 from rfl,
    sample_shg_solver, Indices.get]
  exact fun h => absurd h (by simp)

/-- Witness for C7: the sample SHG solver on the all-ordinary mode, scan of
2 samples at 45°; the sample at index 0 and the nominal sample both have
efficiency exactly 1 because the constant index model matches at every
angle. -/
theorem C7_efficiency_peak_witness :
    (1 : ℝ) ≤ 1 ∧
    acceptance_angle_efficiency sample_shg_solver
      (strChars "𝐎 (1064nm) + 𝐎 (1064nm) → 𝐎 (532nm) (Type I)") 45 1 1 1 =
      Except.ok 1 :=
  C7_efficiency_peak sample_shg_solver
    (strChars "𝐎 (1064nm) + 𝐎 (1064nm) → 𝐎 (532nm) (Type I)") 45 1 1 0 1
    (by
      unfold acceptance_angle_efficiency
      rw [sample_delta_n_zero]
      unfold conversion_efficiency np_sinc Except.map
      norm_num)
    (sample_delta_n_zero (deg2rad 45))
    (by norm_num)

/-! ## Claims C8 and C10: the temperature-phase-matching scanner -/

theorem np_arange_two : np_arange 0 (1 + 1) 1 = [0, 1] := by
  unfold np_arange
  have hc : (Int.ceil ((1 + 1 - 0 : ℝ) / 1)).toNat = 2 := by
    norm_num
    rfl
  rw [hc]
  rw [show List.range 2 = [0, 1] from rfl]
  norm_num

/-- The claim promises one interpolated temperature for every adjacent pair
with a sign change. The mismatch `f x = (2x − 1)·1e-11` on the grid
{0, 1} changes sign between the two samples (f 0 < 0 < f 1), yet the
scanner reports an empty list: the pair is discarded by the `1e-10`
flatness guard. -/
theorem C8_scanner_counterexample :
    (temperature_phase_matching (fun x => (2 * x - 1) * 1e-11) 0 1 1).matching_temperatures
      = [] ∧
    ((fun x : ℝ => (2 * x - 1) * 1e-11) 0 < 0 ∧
     0 < (fun x : ℝ => (2 * x - 1) * 1e-11) 1) ∧
    (temperature_phase_matching (fun x => (2 * x - 1) * 1e-11) 0 1 1).temperature_axis
      = [0, 1] := by
  refine ⟨?_, by norm_num, ?_⟩
  · unfold temperature_phase_matching
    rw [np_arange_two]
    simp only [List.map_cons, List.map_nil, List.length_cons, List.length_nil]
    norm_num [List.filterMap,
      show |(1 : ℝ) / 50000000000| = 1 / 50000000000 from abs_of_pos (by norm_num)]
  · unfold temperature_phase_matching
    rw [np_arange_two]

theorem map_getD_lt (l : List ℝ) (f : ℝ → ℝ) (j : ℕ) (h : j < l.length) :
    (l.map f).getD j 0 = f (l.getD j 0) := by
  rw [List.getD_eq_getElem?_getD, List.getD_eq_getElem?_getD, List.getElem?_map,
    List.getElem?_eq_getElem h]
  rfl

theorem getD_mem_of_lt (l : List ℝ) (j : ℕ) (h : j < l.length) :
    l.getD j 0 ∈ l := by
  rw [List.getD_eq_getElem?_getD, List.getElem?_eq_getElem h]
  exact List.getElem_mem h

/-- C8 (amended): the scanner linearly interpolates one matching
temperature for every adjacent grid pair whose mismatch values have
product ≤ 0 (sign change, zeros included) AND whose difference exceeds the
`1e-10` flatness guard — a sign-change pair flatter than `1e-10` is
silently skipped; for a mismatch curve strictly positive on the whole grid
the matching list is empty; and the result carries the full `np.arange`
temperature grid together with the sampled mismatch curve. -/
theorem C8_scanner_brackets (f : ℝ → ℝ) (temp_min temp_max temp_step : ℝ) (i : ℕ)
    (hi : i + 1 <
      (temperature_phase_matching f temp_min temp_max temp_step).phase_mismatch.length)
    (hsign :
      (temperature_phase_matching f temp_min temp_max temp_step).phase_mismatch.getD i 0 *
      (temperature_phase_matching f temp_min temp_max temp_step).phase_mismatch.getD (i + 1) 0
        ≤ 0)
    (hflat :
      |(temperature_phase_matching f temp_min temp_max temp_step).phase_mismatch.getD (i + 1) 0
        - (temperature_phase_matching f temp_min temp_max temp_step).phase_mismatch.getD i 0|
        > 1e-10) :
    ((temperature_phase_matching f temp_min temp_max temp_step).temperature_axis.getD i 0
      - (temperature_phase_matching f temp_min temp_max temp_step).phase_mismatch.getD i 0 *
        ((temperature_phase_matching f temp_min temp_max temp_step).temperature_axis.getD (i + 1) 0
          - (temperature_phase_matching f temp_min temp_max temp_step).temperature_axis.getD i 0) /
        ((temperature_phase_matching f temp_min temp_max temp_step).phase_mismatch.getD (i + 1) 0
          - (temperature_phase_matching f temp_min temp_max temp_step).phase_mismatch.getD i 0))
      ∈ (temperature_phase_matching f temp_min temp_max temp_step).matching_temperatures ∧
    ((∀ x ∈ (temperature_phase_matching f temp_min temp_max temp_step).temperature_axis,
        0 < f x) →
      (temperature_phase_matching f temp_min temp_max temp_step).matching_temperatures = []) ∧
    (temperature_phase_matching f temp_min temp_max temp_step).temperature_axis
      = np_arange temp_min (temp_max + temp_step) temp_step ∧
    (temperature_phase_matching f temp_min temp_max temp_step).phase_mismatch
      = (temperature_phase_matching f temp_min temp_max temp_step).temperature_axis.map f := by
  have hLL : (List.map f (np_arange temp_min (temp_max + temp_step) temp_step)).length
      = (temperature_phase_matching f temp_min temp_max temp_step).phase_mismatch.length := rfl
  have epm : ∀ k : ℕ,
      (List.map f (np_arange temp_min (temp_max + temp_step) temp_step)).getD k 0
      = (temperature_phase_matching f temp_min temp_max temp_step).phase_mismatch.getD k 0 :=
    fun _ => rfl
  refine ⟨?_, ?_, rfl, rfl⟩
  · apply List.mem_filterMap.mpr
    refine ⟨i, List.mem_range.mpr (by omega), ?_⟩
    simp only
    rw [if_pos ⟨hsign, hflat⟩]
    rfl
  · intro hpos
    apply List.filterMap_eq_nil.mpr
    intro j hj
    have hj2 : j + 1 <
        (temperature_phase_matching f temp_min temp_max temp_step).phase_mismatch.length := by
      have := List.mem_range.mp hj
      omega
    have hlen : (temperature_phase_matching f temp_min temp_max temp_step).phase_mismatch.length
        = (temperature_phase_matching f temp_min temp_max temp_step).temperature_axis.length :=
      List.length_map _ _
    have hpj : 0 < (temperature_phase_matching f temp_min temp_max temp_step).phase_mismatch.getD j 0 := by
      rw [show (temperature_phase_matching f temp_min temp_max temp_step).phase_mismatch
          = (temperature_phase_matching f temp_min temp_max temp_step).temperature_axis.map f from rfl,
        map_getD_lt _ _ _ (by omega)]
      exact hpos _ (getD_mem_of_lt _ _ (by omega))
    have hpj1 : 0 < (temperature_phase_matching f temp_min temp_max temp_step).phase_mismatch.getD (j + 1) 0 := by
      rw [show (temperature_phase_matching f temp_min temp_max temp_step).phase_mismatch
          = (temperature_phase_matching f temp_min temp_max temp_step).temperature_axis.map f from rfl,
        map_getD_lt _ _ _ (by omega)]
      exact hpos _ (getD_mem_of_lt _ _ (by omega))
    simp only
    rw [epm j, epm (j + 1), if_neg]
    intro hcond
    nlinarith [hcond.1, hpj, hpj1]

/-- Witness for C8: the mismatch `x − 1/2` on the grid {0, 1}: the single
adjacent pair has a genuine sign change and passes the flatness guard, so
the interpolated temperature is reported; the positivity and field
conjuncts are instantiated alongside. -/
theorem C8_scanner_brackets_witness :
    ((temperature_phase_matching (fun x : ℝ => x - 1 / 2) 0 1 1).temperature_axis.getD 0 0
      - (temperature_phase_matching (fun x : ℝ => x - 1 / 2) 0 1 1).phase_mismatch.getD 0 0 *
        ((temperature_phase_matching (fun x : ℝ => x - 1 / 2) 0 1 1).temperature_axis.getD 1 0
          - (temperature_phase_matching (fun x : ℝ => x - 1 / 2) 0 1 1).temperature_axis.getD 0 0) /
        ((temperature_phase_matching (fun x : ℝ => x - 1 / 2) 0 1 1).phase_mismatch.getD 1 0
          - (temperature_phase_matching (fun x : ℝ => x - 1 / 2) 0 1 1).phase_mismatch.getD 0 0))
      ∈ (temperature_phase_matching (fun x : ℝ => x - 1 / 2) 0 1 1).matching_temperatures ∧
    ((∀ x ∈ (temperature_phase_matching (fun x : ℝ => x - 1 / 2) 0 1 1).temperature_axis,
        0 < x - 1 / 2) →
      (temperature_phase_matching (fun x : ℝ => x - 1 / 2) 0 1 1).matching_temperatures = []) ∧
    (temperature_phase_matching (fun x : ℝ => x - 1 / 2) 0 1 1).temperature_axis
      = np_arange 0 (1 + 1) 1 ∧
    (temperature_phase_matching (fun x : ℝ => x - 1 / 2) 0 1 1).phase_mismatch
      = (temperature_phase_matching (fun x : ℝ => x - 1 / 2) 0 1 1).temperature_axis.map
        (fun x : ℝ => x - 1 / 2) :=
  C8_scanner_brackets (fun x : ℝ => x - 1 / 2) 0 1 1 0
    (by
      rw [show (temperature_phase_matching (fun x : ℝ => x - 1 / 2) 0 1 1).phase_mismatch
        = List.map (fun x : ℝ => x - 1 / 2) (np_arange 0 (1 + 1) 1) from rfl, np_arange_two]
      norm_num)
    (by
      rw [show (temperature_phase_matching (fun x : ℝ => x - 1 / 2) 0 1 1).phase_mismatch
        = List.map (fun x : ℝ => x - 1 / 2) (np_arange 0 (1 + 1) 1) from rfl, np_arange_two]
      norm_num)
    (by
      rw [show (temperature_phase_matching (fun x : ℝ => x - 1 / 2) 0 1 1).phase_mismatch
        = List.map (fun x : ℝ => x - 1 / 2) (np_arange 0 (1 + 1) 1) from rfl, np_arange_two]
      norm_num)

/-! ## Claim C10: matching temperatures stay within the scan range -/

/-- C10: every matching temperature the scanner reports lies inside the
temperature interval `[t_i, t_{i+1}]` of an adjacent grid pair whose
mismatch values have non-positive product — the pair that brackets it —
and hence within the caller-supplied range extended by at most one grid
step. -/
theorem C10_matching_temperature_in_range (f : ℝ → ℝ)
    (temp_min temp_max temp_step x : ℝ) (hstep : 0 < temp_step)
    (hx : x ∈ (temperature_phase_matching f temp_min temp_max
      temp_step).matching_temperatures) :
    (∃ i, i + 1 < (temperature_phase_matching f temp_min temp_max
        temp_step).temperature_axis.length ∧
      (temperature_phase_matching f temp_min temp_max
          temp_step).phase_mismatch.getD i 0 *
        (temperature_phase_matching f temp_min temp_max
          temp_step).phase_mismatch.getD (i + 1) 0 ≤ 0 ∧
      (temperature_phase_matching f temp_min temp_max
        temp_step).temperature_axis.getD i 0 ≤ x ∧
      x ≤ (temperature_phase_matching f temp_min temp_max
        temp_step).temperature_axis.getD (i + 1) 0) ∧
    temp_min ≤ x ∧ x ≤ temp_max + temp_step := by
  obtain ⟨i, hir, hfi⟩ := List.mem_filterMap.mp hx
  have hi := List.mem_range.mp hir
  have hcnt : (List.map f (np_arange temp_min (temp_max + temp_step) temp_step)).length
      = (Int.ceil ((temp_max + temp_step - temp_min) / temp_step)).toNat := by
    unfold np_arange
    rw [List.length_map, List.length_map, List.length_range]
  rw [hcnt] at hi
  simp only at hfi
  split at hfi
  case isFalse => cases hfi
  case isTrue hcond =>
    have hti : (np_arange temp_min (temp_max + temp_step) temp_step).getD i 0
        = temp_min + (i : ℝ) * temp_step := by
      unfold np_arange
      exact range_map_getD _ _ _ (by omega)
    have hti1 : (np_arange temp_min (temp_max + temp_step) temp_step).getD (i + 1) 0
        = temp_min + ((i : ℝ) + 1) * temp_step := by
      unfold np_arange
      rw [range_map_getD _ _ _ (by omega)]
      push_cast
      ring
    rw [hti, hti1] at hfi
    set a := (List.map f (np_arange temp_min (temp_max + temp_step) temp_step)).getD i 0 with ha_def
    set b := (List.map f (np_arange temp_min (temp_max + temp_step) temp_step)).getD (i + 1) 0 with hb_def
    have hxv : x = temp_min + (i : ℝ) * temp_step
        + -(a * temp_step / (b - a)) := by
      have h1 := Option.some.inj hfi
      rw [← h1]
      ring
    have hba : b - a ≠ 0 := by
      intro h0
      rw [h0, abs_zero] at hcond
      have := hcond.2
      norm_num at this
    have hd0 : 0 ≤ -(a * temp_step / (b - a)) ∧
        -(a * temp_step / (b - a)) ≤ temp_step := by
      rcases lt_or_gt_of_ne hba with hneg | hpos
      · -- b < a, so a ≥ 0 ≥ b
        have ha0 : 0 ≤ a := by
          by_contra h
          push_neg at h
          have hb0 : b < 0 := by linarith
          nlinarith [mul_pos (neg_pos.mpr h) (neg_pos.mpr hb0), hcond.1]
        have hb0 : b ≤ 0 := by
          by_contra h
          push_neg at h
          have ha1 : 0 < a := by linarith
          nlinarith [mul_pos ha1 h, hcond.1]
        have heq : -(a * temp_step / (b - a)) = a * temp_step / (a - b) := by
          rw [show a - b = -(b - a) from by ring, div_neg]
        rw [heq]
        constructor
        · exact div_nonneg (mul_nonneg ha0 hstep.le) (by linarith)
        · rw [div_le_iff (by linarith : (0 : ℝ) < a - b)]
          nlinarith
      · -- a < b, so a ≤ 0 ≤ b
        have ha0 : a ≤ 0 := by
          by_contra h
          push_neg at h
          have hb0 : 0 < b := by linarith
          nlinarith [mul_pos h hb0, hcond.1]
        have hb0 : 0 ≤ b := by
          by_contra h
          push_neg at h
          have ha1 : a < 0 := by linarith
          nlinarith [mul_pos (neg_pos.mpr ha1) (neg_pos.mpr h), hcond.1]
        have heq : -(a * temp_step / (b - a)) = (-a) * temp_step / (b - a) := by
          ring
        rw [heq]
        constructor
        · exact div_nonneg (mul_nonneg (by linarith) hstep.le) hpos.le
        · rw [div_le_iff hpos]
          nlinarith
    have hcast : ((Int.ceil ((temp_max + temp_step - temp_min) / temp_step)).toNat : ℝ)
        = ((Int.ceil ((temp_max + temp_step - temp_min) / temp_step) : ℤ) : ℝ) := by
      have hpos : 0 < Int.ceil ((temp_max + temp_step - temp_min) / temp_step) := by
        by_contra h
        push_neg at h
        have : (Int.ceil ((temp_max + temp_step - temp_min) / temp_step)).toNat = 0 :=
          Int.toNat_of_nonpos h
        omega
      exact_mod_cast Int.toNat_of_nonneg hpos.le
    have hbound : ((i : ℝ) + 1) * temp_step < temp_max + temp_step - temp_min := by
      have h1 : (i : ℝ) + 1
          ≤ ((Int.ceil ((temp_max + temp_step - temp_min) / temp_step)).toNat : ℝ) - 1 := by
        have h2 : i + 2 ≤ (Int.ceil ((temp_max + temp_step - temp_min) / temp_step)).toNat := by
          omega
        have h3 := Nat.cast_le (α := ℝ) |>.mpr h2
        push_cast at h3
        linarith
      have h4 : ((Int.ceil ((temp_max + temp_step - temp_min) / temp_step)).toNat : ℝ) - 1
          < (temp_max + temp_step - temp_min) / temp_step := by
        rw [hcast]
        have := Int.ceil_lt_add_one ((temp_max + temp_step - temp_min) / temp_step)
        linarith
      have h5 : (i : ℝ) + 1 < (temp_max + temp_step - temp_min) / temp_step := by linarith
      calc ((i : ℝ) + 1) * temp_step
          < ((temp_max + temp_step - temp_min) / temp_step) * temp_step :=
            mul_lt_mul_of_pos_right h5 hstep
        _ = temp_max + temp_step - temp_min := div_mul_cancel₀ _ (ne_of_gt hstep)
    have haxis : (temperature_phase_matching f temp_min temp_max temp_step).temperature_axis
        = np_arange temp_min (temp_max + temp_step) temp_step := rfl
    have hpm : (temperature_phase_matching f temp_min temp_max temp_step).phase_mismatch
        = List.map f (np_arange temp_min (temp_max + temp_step) temp_step) := rfl
    have haxlen : (np_arange temp_min (temp_max + temp_step) temp_step).length
        = (Int.ceil ((temp_max + temp_step - temp_min) / temp_step)).toNat := by
      unfold np_arange
      rw [List.length_map, List.length_range]
    refine ⟨⟨i, ?_, ?_, ?_, ?_⟩, ?_, ?_⟩
    · rw [haxis, haxlen]
      omega
    · rw [hpm]
      exact hcond.1
    · rw [haxis, hti, hxv]
      linarith [hd0.1]
    · rw [haxis, hti1, hxv]
      linarith [hd0.2]
    · rw [hxv]
      have : 0 ≤ (i : ℝ) * temp_step := mul_nonneg (Nat.cast_nonneg i) hstep.le
      linarith [hd0.1]
    · rw [hxv]
      nlinarith [hd0.2, hbound]

/-- Witness for C10: the mismatch `x − 1/2` on the grid {0, 1} reports the
matching temperature 1/2, which lies in the bracketing pair's interval and
in [0, 1 + 1]. -/
theorem C10_matching_temperature_in_range_witness :
    (∃ i, i + 1 < (temperature_phase_matching (fun x : ℝ => x - 1 / 2)
        0 1 1).temperature_axis.length ∧
      (temperature_phase_matching (fun x : ℝ => x - 1 / 2)
          0 1 1).phase_mismatch.getD i 0 *
        (temperature_phase_matching (fun x : ℝ => x - 1 / 2)
          0 1 1).phase_mismatch.getD (i + 1) 0 ≤ 0 ∧
      (temperature_phase_matching (fun x : ℝ => x - 1 / 2)
        0 1 1).temperature_axis.getD i 0 ≤ 1 / 2 ∧
      (1 / 2 : ℝ) ≤ (temperature_phase_matching (fun x : ℝ => x - 1 / 2)
        0 1 1).temperature_axis.getD (i + 1) 0) ∧
    (0 : ℝ) ≤ 1 / 2 ∧ (1 / 2 : ℝ) ≤ 1 + 1 :=
  C10_matching_temperature_in_range (fun x : ℝ => x - 1 / 2) 0 1 1 (1 / 2)
    (by norm_num)
    (by
      rw [show (temperature_phase_matching (fun x : ℝ => x - 1 / 2) 0 1 1).matching_temperatures
        = (List.range ((List.map (fun x : ℝ => x - 1 / 2) (np_arange 0 (1 + 1) 1)).length - 1)).filterMap
          (fun i =>
            if (List.map (fun x : ℝ => x - 1 / 2) (np_arange 0 (1 + 1) 1)).getD i 0 *
                (List.map (fun x : ℝ => x - 1 / 2) (np_arange 0 (1 + 1) 1)).getD (i + 1) 0 ≤ 0 ∧
                |(List.map (fun x : ℝ => x - 1 / 2) (np_arange 0 (1 + 1) 1)).getD (i + 1) 0 -
                  (List.map (fun x : ℝ => x - 1 / 2) (np_arange 0 (1 + 1) 1)).getD i 0| > 1e-10 then
              some ((np_arange 0 (1 + 1) 1).getD i 0 -
                (List.map (fun x : ℝ => x - 1 / 2) (np_arange 0 (1 + 1) 1)).getD i 0 *
                  ((np_arange 0 (1 + 1) 1).getD (i + 1) 0 - (np_arange 0 (1 + 1) 1).getD i 0) /
                  ((List.map (fun x : ℝ => x - 1 / 2) (np_arange 0 (1 + 1) 1)).getD (i + 1) 0 -
                    (List.map (fun x : ℝ => x - 1 / 2) (np_arange 0 (1 + 1) 1)).getD i 0))
            else none) from rfl, np_arange_two]
      norm_num [List.filterMap,
        show |(1 : ℝ) / 2 - -(1 / 2)| = 1 from by rw [show (1 : ℝ) / 2 - -(1 / 2) = 1 from by norm_num]; exact abs_one])

/-! ## Claim C9: acceptance-scan axes -/

/-- Counterexample to C9: with `step = 1`, `res = 1` and critical angle 0°,
the angle-scan axis is `[-10⁻³, 0]` — the offset −10⁻³ rad is present but
its reflection +10⁻³ rad about the nominal value `deg2rad 0 = 0` is not,
so the axis is not symmetric around the nominal value. -/
theorem C9_scan_axis_counterexample :
    acceptance_angle_axis 0 1 1 = [-(1e-3), 0] ∧
    -(1e-3) ∈ acceptance_angle_axis 0 1 1 ∧
    (1e-3 : ℝ) ∉ acceptance_angle_axis 0 1 1 ∧
    deg2rad 0 = 0 := by
  have hax : acceptance_angle_axis 0 1 1 = [-(1e-3), 0] := by
    unfold acceptance_angle_axis
    rw [show 2 * 1 = 2 from rfl, show List.range 2 = [0, 1] from rfl]
    simp [deg2rad]
  refine ⟨hax, ?_, ?_, ?_⟩
  · rw [hax]; left
  · rw [hax]
    intro hmem
    rcases List.mem_cons.mp hmem with h | hmem
    · norm_num at h
    · rcases List.mem_cons.mp hmem with h | hmem
      · norm_num at h
      · cases hmem
  · simp [deg2rad]

/-- C9 (amended): every acceptance-bandwidth variant builds its scan axis
as exactly `2·step` samples with uniform spacing `res` in the scan
variable's physical unit (10⁻³ rad per unit of `res` for the angle scan,
nm and °C directly for the others); sample `k` sits at offset
`(k − step)·res` from the nominal value, so the offsets run from
`−step·res` to `(step−1)·res` — the nominal value is the sample at index
`step`, but the axis is not symmetric: the extreme positive offset is one
step short of the extreme negative one. -/
theorem C9_scan_axes (tc : ℝ) (cfg : SimulationConfig) (step : ℕ) (res : ℝ) :
    (acceptance_angle_axis tc step res).length = 2 * step ∧
    (acceptance_wavelength_axis cfg step res).length = 2 * step ∧
    (acceptance_temperature_axis cfg step res).length = 2 * step ∧
    (∀ k, k < 2 * step →
      (acceptance_angle_axis tc step res).getD k 0
        = deg2rad tc + ((k : ℝ) - (step : ℝ)) * res * 1e-3) ∧
    (∀ k, k < 2 * step →
      (acceptance_wavelength_axis cfg step res).getD k 0
        = cfg.wavelength1_nm + ((k : ℝ) - (step : ℝ)) * res) ∧
    (∀ k, k < 2 * step →
      (acceptance_temperature_axis cfg step res).getD k 0
        = cfg.temperature + ((k : ℝ) - (step : ℝ)) * res) := by
  refine ⟨?_, ?_, ?_, ?_, ?_, ?_⟩
  · unfold acceptance_angle_axis
    rw [List.length_map, List.length_range]
  · unfold acceptance_wavelength_axis
    rw [List.length_map, List.length_range]
  · unfold acceptance_temperature_axis
    rw [List.length_map, List.length_range]
  · intro k hk
    unfold acceptance_angle_axis
    exact range_map_getD _ _ _ hk
  · intro k hk
    unfold acceptance_wavelength_axis
    exact range_map_getD _ _ _ hk
  · intro k hk
    unfold acceptance_temperature_axis
    exact range_map_getD _ _ _ hk
